import Mathlib

/-!
Verification of the TomoPhantom 3D sinogram builder (`buildSino3D_core.c`).

The development shallowly embeds `buildSino3D_core_single` and the component
loop of `buildSino3D_core` over an arbitrary linear ordered field `R`.
The C `float` arithmetic is idealised as exact field arithmetic; the
transcendental libm routines `sinf, cosf, expf, logf, sqrtf` are passed in as
an explicit bundle of functions (`Ops`), so every definition is computable and
generic; theorems that need the genuine analytic functions instantiate the
bundle with `Real.sin`, `Real.cos`, `Real.exp`, `Real.log`, `Real.sqrt`.
The output pointer `float *A` is modelled as a flat buffer `Nat -> R`, and the
C write `A[idx] += v` as the pointwise update `addAt idx v`.
-/

namespace TomoSino

variable {R : Type} [LinearOrderedField R]

/-- The C macro `M_PI` defined at the top of the source file. -/
def M_PI : R := 3.14159265358979323846

/-- The C macro `EPS` defined at the top of the source file. -/
def EPS : R := 0.000000001

/-- The output buffer: a flat array of cells, modelling the C pointer `float *A`. -/
abbrev Buf (R : Type) := ℕ → R

/-- The in-place accumulation `A[idx] += v`. -/
def addAt (idx : ℕ) (v : R) (A : Buf R) : Buf R :=
  fun m => if m = idx then A m + v else A m

/-- The bundle of libm routines used by the kernels. -/
structure Ops (R : Type) where
  sinf : R → R
  cosf : R → R
  expf : R → R
  logf : R → R
  sqrtf : R → R

/-! ### Grid builder (lines 46-59 of the source) -/

/-- `Sinorange_Pmax = (float)(P)/(float)(N+1)`. -/
def Sinorange_Pmax (N P : ℕ) : R := (P : R) / ((N : R) + 1)

/-- `Sinorange_Pmin = -Sinorange_Pmax`. -/
def Sinorange_Pmin (N P : ℕ) : R := -(Sinorange_Pmax N P)

/-- `H_p = (Sinorange_Pmax - Sinorange_Pmin)/(P-1)`, the detector-offset step. -/
def H_p (N P : ℕ) : R := (Sinorange_Pmax N P - Sinorange_Pmin N P) / ((P : R) - 1)

/-- The detector-offset array entry `Sinorange_P_Ar[i] = Sinorange_Pmax - i*H_p`. -/
def Sinorange_P_Ar (N P : ℕ) (i : ℕ) : R := Sinorange_Pmax N P - (i : R) * H_p N P

/-- `Tomorange_Xmin = -1.0f`. -/
def Tomorange_Xmin : R := -1

/-- `Tomorange_Xmax = 1.0f`. -/
def Tomorange_Xmax : R := 1

/-- `H_x = (Tomorange_Xmax - Tomorange_Xmin)/N`, the spatial step. -/
def H_x (N : ℕ) : R := (Tomorange_Xmax - Tomorange_Xmin : R) / (N : R)

/-- The spatial-coordinate array entry `Tomorange_X_Ar[i] = Tomorange_Xmin + i*H_x`. -/
def Tomorange_X_Ar (N : ℕ) (i : ℕ) : R := Tomorange_Xmin + (i : R) * H_x N

/-- The angle array entry `AnglesRad[i] = Th[i]*(M_PI/180)`; the input angle
pointer `float *Th` is modelled as a function. -/
def AnglesRad (Th : ℕ → R) (i : ℕ) : R := Th i * (M_PI / 180)

/-- The detector-offset array as a list of its `P` entries (`malloc(P*sizeof(float))`
filled by the loop at line 51). -/
def detectorOffsets (R : Type) [LinearOrderedField R] (N P : ℕ) : List R :=
  (List.range P).map (Sinorange_P_Ar N P)

/-- The spatial-coordinate array as a list of its `N` entries. -/
def spatialCoords (R : Type) [LinearOrderedField R] (N : ℕ) : List R :=
  (List.range N).map (Tomorange_X_Ar N)

/-- The radian-angle array as a list of its `AngTot` entries. -/
def anglesRadList (R : Type) [LinearOrderedField R] (Th : ℕ → R) (AngTot : ℕ) : List R :=
  (List.range AngTot).map (AnglesRad Th)

/-! ### Per-slice deformation tables (lines 86-91) -/

/-- `Zdel[i] = Tomorange_X_Ar[i] - z0`. -/
def Zdel (N : ℕ) (z0 : R) (i : ℕ) : R := Tomorange_X_Ar N i - z0

/-- `Zdel2[i] = c2*powf(Zdel[i],2)`. -/
def Zdel2 (N : ℕ) (z0 c2 : R) (i : ℕ) : R := c2 * (Zdel N z0 i) ^ 2

/-! ### Centering conventions (lines 63-73 and 252-262) -/

/-- The centre offset applied to `x0`/`y0` : a full spatial step for the
matlab radon convention (`CenTypeIn == 0`), a half step for the astra
convention (lines 63-73). -/
def centered (CenTypeIn : ℤ) (N : ℕ) (t : R) : R :=
  if CenTypeIn = 0 then t + H_x N else t + 0.5 * H_x N

/-- Rectangle-frame abscissa `x11` (lines 252-262). -/
def rectX11 (CenTypeIn : ℤ) (N : ℕ) (y0 : R) : R :=
  if CenTypeIn = 0 then -2 * y0 - H_x N else -2 * y0 - 0.5 * H_x N

/-- Rectangle-frame ordinate `y11` (lines 252-262). -/
def rectY11 (CenTypeIn : ℤ) (N : ℕ) (x0 : R) : R :=
  if CenTypeIn = 0 then 2 * x0 + H_x N else 2 * x0 + 0.5 * H_x N

/-! ### The shared loop nest

Every shape kernel iterates slice `k`, then angle `i`, then detector `j`,
guarded by a per-slice condition, and accumulates into the flat cell
`k*P*AngTot + i*P + j`. -/

/-- The shared `k -> i -> j` loop nest of all six kernels: for each slice `k`
satisfying the per-slice condition, add `val k i j` to cell
`k*P*AngTot + i*P + j` for every angle `i` and detector `j`. -/
def kijLoop (N AngTot P : ℕ) (cond : ℕ → Prop) [DecidablePred cond]
    (val : ℕ → ℕ → ℕ → R) (A : Buf R) : Buf R :=
  (List.range N).foldl (fun Ak k =>
    if cond k then
      (List.range AngTot).foldl (fun Ai i =>
        (List.range P).foldl (fun Aj j =>
          addAt (k * P * AngTot + i * P + j) (val k i j) Aj) Ai) Ak
    else Ak) A

/-! ### The six shape-kernel bodies (per-cell contributions)

Each body is the text of the corresponding innermost loop body of
`buildSino3D_core_single`, with the loop-hoisted locals inlined as `let`s.
A guarded write `if (cond) A[idx] += v;` is embedded as adding
`if cond then v else 0`. -/

/-- Object 1, the volumetric gaussian (lines 97-115).  The C code reads the
locals `a1`, `b1` without ever initialising them in this branch; they enter
here as the explicit parameters `a1` and `b1` supplied by the caller as
`a1_uninit`, `b1_uninit`. -/
def blobVal (o : Ops R) (N P : ℕ) (Th : ℕ → R)
    (x00 y00 phi_rot_radian C0 a1 b1 : R) (i j : ℕ) : R :=
  let C1 : R := -4 * o.logf 2
  let AA5 := ((N : R) / 2) * (C0 * o.sqrtf a1 * o.sqrtf b1 / 2) * o.sqrtf (M_PI / o.logf 2)
  let sin_2 := (o.sinf (AnglesRad Th i + phi_rot_radian)) ^ 2
  let cos_2 := (o.cosf (AnglesRad Th i + phi_rot_radian)) ^ 2
  let delta1 := 1 / (a1 * cos_2 + b1 * sin_2)
  let delta_sq := o.sqrtf delta1
  let first_dr := AA5 * delta_sq
  let AA2 := -x00 * o.cosf (AnglesRad Th i) + y00 * o.sinf (AnglesRad Th i)
  let AA3 := (Sinorange_P_Ar N P j - AA2) ^ 2
  let under_exp := (C1 * AA3) * delta1
  first_dr * o.expf under_exp

/-- Object 2, the parabola with Lambda = 1/2 (lines 116-144), as a function of
the per-slice effective semi-axes `a1`, `b1` and peak `C00`. -/
def parabola2Body (o : Ops R) (N P : ℕ) (Th : ℕ → R)
    (x00 y00 phi_rot_radian a1 b1 C00 : R) (i j : ℕ) : R :=
  let AA5 := ((N : R) / 2) * ((M_PI / 2) * C00 * o.sqrtf a1 * o.sqrtf b1)
  let sin_2 := (o.sinf (AnglesRad Th i + phi_rot_radian)) ^ 2
  let cos_2 := (o.cosf (AnglesRad Th i + phi_rot_radian)) ^ 2
  let delta1 := 1 / (a1 * cos_2 + b1 * sin_2)
  let delta_sq := o.sqrtf delta1
  let first_dr := AA5 * delta_sq
  let AA2 := -x00 * o.cosf (AnglesRad Th i) + y00 * o.sinf (AnglesRad Th i)
  let AA3 := (Sinorange_P_Ar N P j - AA2) ^ 2
  let AA6 := AA3 * delta1
  if AA6 < 1 then first_dr * (1 - AA6) else 0

/-- The normalized squared distance `AA6 = (p - p0)^2 * delta1` of Object 2
at angle `i` and detector `j`. -/
def parabola2NSD (o : Ops R) (N P : ℕ) (Th : ℕ → R)
    (x00 y00 phi_rot_radian a1 b1 : R) (i j : ℕ) : R :=
  let sin_2 := (o.sinf (AnglesRad Th i + phi_rot_radian)) ^ 2
  let cos_2 := (o.cosf (AnglesRad Th i + phi_rot_radian)) ^ 2
  let delta1 := 1 / (a1 * cos_2 + b1 * sin_2)
  let AA2 := -x00 * o.cosf (AnglesRad Th i) + y00 * o.sinf (AnglesRad Th i)
  let AA3 := (Sinorange_P_Ar N P j - AA2) ^ 2
  AA3 * delta1

/-- Object 3, the elliptical disk (lines 145-175): the per-slice rescaling is
commented out in the source, so the body uses `a22 = a*a`, `b22 = b*b` and the
raw intensity directly. -/
def diskBody (o : Ops R) (N P : ℕ) (Th : ℕ → R)
    (x00 y00 phi_rot_radian C0 a b : R) (i j : ℕ) : R :=
  let a22 := a * a
  let b22 := b * b
  let AA5 := (N : R) * C0 * a * b
  let sin_2 := (o.sinf (AnglesRad Th i + phi_rot_radian)) ^ 2
  let cos_2 := (o.cosf (AnglesRad Th i + phi_rot_radian)) ^ 2
  let delta1 := 1 / (a22 * cos_2 + b22 * sin_2)
  let delta_sq := o.sqrtf delta1
  let first_dr := AA5 * delta_sq
  let AA2 := -x00 * o.cosf (AnglesRad Th i) + y00 * o.sinf (AnglesRad Th i)
  let AA3 := (Sinorange_P_Ar N P j - AA2) ^ 2
  let AA6 := AA3 * delta1
  if AA6 < 1 then first_dr * o.sqrtf (1 - AA6) else 0

/-- The normalized squared distance `AA6` of Object 3. -/
def diskNSD (o : Ops R) (N P : ℕ) (Th : ℕ → R)
    (x00 y00 phi_rot_radian a b : R) (i j : ℕ) : R :=
  let a22 := a * a
  let b22 := b * b
  let sin_2 := (o.sinf (AnglesRad Th i + phi_rot_radian)) ^ 2
  let cos_2 := (o.cosf (AnglesRad Th i + phi_rot_radian)) ^ 2
  let delta1 := 1 / (a22 * cos_2 + b22 * sin_2)
  let AA2 := -x00 * o.cosf (AnglesRad Th i) + y00 * o.sinf (AnglesRad Th i)
  let AA3 := (Sinorange_P_Ar N P j - AA2) ^ 2
  AA3 * delta1

/-- Object 4, the parabola with Lambda = 1 (lines 176-203), as a function of
the per-slice effective `a1`, `b1`, `C00`. -/
def parabola4Body (o : Ops R) (N P : ℕ) (Th : ℕ → R)
    (x00 y00 phi_rot_radian a1 b1 C00 : R) (i j : ℕ) : R :=
  let AA5 := ((N : R) / 2) * (4 * ((0.25 * o.sqrtf a1 * o.sqrtf b1 * C00) / 2.5))
  let sin_2 := (o.sinf (AnglesRad Th i + phi_rot_radian)) ^ 2
  let cos_2 := (o.cosf (AnglesRad Th i + phi_rot_radian)) ^ 2
  let delta1 := 1 / (0.25 * a1 * cos_2 + 0.25 * b1 * sin_2)
  let delta_sq := o.sqrtf delta1
  let first_dr := AA5 * delta_sq
  let AA2 := -x00 * o.cosf (AnglesRad Th i) + y00 * o.sinf (AnglesRad Th i)
  let AA3 := (Sinorange_P_Ar N P j - AA2) ^ 2
  let AA6 := AA3 * delta1
  if AA6 < 1 then first_dr * (1 - AA6) else 0

/-- The normalized squared distance `AA6` of Object 4. -/
def parabola4NSD (o : Ops R) (N P : ℕ) (Th : ℕ → R)
    (x00 y00 phi_rot_radian a1 b1 : R) (i j : ℕ) : R :=
  let sin_2 := (o.sinf (AnglesRad Th i + phi_rot_radian)) ^ 2
  let cos_2 := (o.cosf (AnglesRad Th i + phi_rot_radian)) ^ 2
  let delta1 := 1 / (0.25 * a1 * cos_2 + 0.25 * b1 * sin_2)
  let AA2 := -x00 * o.cosf (AnglesRad Th i) + y00 * o.sinf (AnglesRad Th i)
  let AA3 := (Sinorange_P_Ar N P j - AA2) ^ 2
  AA3 * delta1

/-- The cone radial profile `pps2 - rlogi` as a function of the normalized
squared distance `AA6` (lines 226-237), with its epsilon guards. -/
def coneProfile (o : Ops R) (AA6 : R) : R :=
  let pps2 : R := if AA6 < 1 then (if AA6 < 1 - EPS then o.sqrtf |1 - AA6| else 0) else 0
  let rlogi : R :=
    if EPS < AA6 ∧ pps2 ≠ 1 then
      (let ty1 := (1 + pps2) / (1 - pps2)
       if 0 < ty1 then 0.5 * AA6 * o.logf ty1 else 0)
    else 0
  pps2 - rlogi

/-- Object 5, the cone (lines 204-241), as a function of the per-slice
effective `a1`, `b1`, `C00`. -/
def coneBody (o : Ops R) (N P : ℕ) (Th : ℕ → R)
    (x00 y00 phi_rot_radian a1 b1 C00 : R) (i j : ℕ) : R :=
  let AA5 := ((N : R) / 2) * (o.sqrtf a1 * o.sqrtf b1 * C00)
  let sin_2 := (o.sinf (AnglesRad Th i + phi_rot_radian)) ^ 2
  let cos_2 := (o.cosf (AnglesRad Th i + phi_rot_radian)) ^ 2
  let delta1 := 1 / (a1 * cos_2 + b1 * sin_2)
  let delta_sq := o.sqrtf delta1
  let first_dr := AA5 * delta_sq
  let AA2 := -x00 * o.cosf (AnglesRad Th i) + y00 * o.sinf (AnglesRad Th i)
  let AA3 := (Sinorange_P_Ar N P j - AA2) ^ 2
  let AA6 := AA3 * delta1
  first_dr * coneProfile o AA6

/-- Object 6, the rotated rectangle (lines 242-336).  The angle array is read
at the reversed index `(AngTot-1)-i` (line 274).  The two successive
`QM > ywid` blocks of the source (lines 318-323 and 324-328, the first of
which is shadowed by the second) are both kept. -/
def rectBody (o : Ops R) (N P AngTot : ℕ) (Th : ℕ → R)
    (x11 y11 ksi1 xwid ywid C0 : R) (i j : ℕ) : R :=
  let ksi00 := AnglesRad Th ((AngTot - 1) - i)
  let p00 := Sinorange_P_Ar N P j
  let PI2 : R := M_PI * 0.5
  let ksi := if M_PI < ksi00 then ksi00 - M_PI else ksi00
  let p := if M_PI < ksi00 then -p00 else p00
  let C := o.cosf ksi
  let S := o.sinf ksi
  let XSYC := -x11 * S + y11 * C
  let A2 := xwid * 0.5
  let B2 := ywid * 0.5
  let FI := if ksi - ksi1 < 0 then M_PI + ksi - ksi1 else ksi - ksi1
  let FI := if PI2 < FI then M_PI - FI else FI
  let CF := o.cosf FI
  let SF := o.sinf FI
  let P0 := |p - XSYC|
  let SS := xwid / CF * C0
  let SS := if |CF| ≤ EPS then (if EPS < P0 - A2 then 0 else ywid * C0) else SS
  let SS := if |SF| ≤ EPS then (if EPS < P0 - B2 then 0 else xwid * C0) else SS
  let TF := SF / CF
  let PC := P0 / CF
  let QP := B2 + A2 * TF
  let QM := QP + PC
  let SS := if ywid < QM then
      (let DEL := P0 + B2 * CF
       if A2 * SF < DEL then (QP - PC) / SF * C0 else ywid / SF * C0)
    else SS
  let SS := if ywid < QM then
      (let DEL := P0 + B2 * CF
       if A2 * SF < DEL then (QP - PC) / SF * C0 else ywid / SF * C0)
    else xwid / CF * C0
  let SS := if QP ≤ PC then 0 else SS
  ((N : R) / 2) * SS

/-! ### The per-primitive builder `buildSino3D_core_single` (lines 39-345) -/

/-- The per-primitive sinogram builder.  Mirrors `buildSino3D_core_single`:
dispatches on the shape tag `Object`, accumulates into `A` through the
`k`, `i`, `j` loop nest of the matching kernel, and returns the updated buffer
together with the C return value (`*A` on success, `0` and an untouched buffer
for an unknown tag, line 337-340).  The parameters `a1_uninit`, `b1_uninit`
model the contents of the uninitialised locals `a1`, `b1` that the Object 1
branch reads. -/
def buildSino3D_core_single (o : Ops R) (A : Buf R) (N P : ℕ) (Th : ℕ → R) (AngTot : ℕ)
    (CenTypeIn : ℤ) (Object : ℤ) (C0 x0 y0 z0 a b c psi_gr1 psi_gr2 psi_gr3 : R)
    (a1_uninit b1_uninit : R) : Buf R × R :=
  if Object = 1 then
    (kijLoop N AngTot P (fun _ => True)
      (fun _ i j => blobVal o N P Th (centered CenTypeIn N x0) (centered CenTypeIn N y0)
        (psi_gr1 * (M_PI / 180)) C0 a1_uninit b1_uninit i j) A,
     kijLoop N AngTot P (fun _ => True)
      (fun _ i j => blobVal o N P Th (centered CenTypeIn N x0) (centered CenTypeIn N y0)
        (psi_gr1 * (M_PI / 180)) C0 a1_uninit b1_uninit i j) A 0)
  else if Object = 2 then
    (kijLoop N AngTot P (fun k => Zdel2 N z0 (1 / (c * c)) k ≤ 1)
      (fun k i j => parabola2Body o N P Th (centered CenTypeIn N x0) (centered CenTypeIn N y0)
        (psi_gr1 * (M_PI / 180))
        (a * (1 - Zdel2 N z0 (1 / (c * c)) k) ^ 2) (b * (1 - Zdel2 N z0 (1 / (c * c)) k) ^ 2)
        (C0 * (1 - Zdel2 N z0 (1 / (c * c)) k) ^ 2) i j) A,
     kijLoop N AngTot P (fun k => Zdel2 N z0 (1 / (c * c)) k ≤ 1)
      (fun k i j => parabola2Body o N P Th (centered CenTypeIn N x0) (centered CenTypeIn N y0)
        (psi_gr1 * (M_PI / 180))
        (a * (1 - Zdel2 N z0 (1 / (c * c)) k) ^ 2) (b * (1 - Zdel2 N z0 (1 / (c * c)) k) ^ 2)
        (C0 * (1 - Zdel2 N z0 (1 / (c * c)) k) ^ 2) i j) A 0)
  else if Object = 3 then
    (kijLoop N AngTot P (fun k => Zdel2 N z0 (1 / (c * c)) k ≤ 1)
      (fun _ i j => diskBody o N P Th (centered CenTypeIn N x0) (centered CenTypeIn N y0)
        (psi_gr1 * (M_PI / 180)) C0 a b i j) A,
     kijLoop N AngTot P (fun k => Zdel2 N z0 (1 / (c * c)) k ≤ 1)
      (fun _ i j => diskBody o N P Th (centered CenTypeIn N x0) (centered CenTypeIn N y0)
        (psi_gr1 * (M_PI / 180)) C0 a b i j) A 0)
  else if Object = 4 then
    (kijLoop N AngTot P (fun k => Zdel2 N z0 (4 * (1 / (c * c))) k ≤ 1)
      (fun k i j => parabola4Body o N P Th (centered CenTypeIn N x0) (centered CenTypeIn N y0)
        (psi_gr1 * (M_PI / 180))
        (a * (1 - Zdel2 N z0 (4 * (1 / (c * c))) k) ^ 2)
        (b * (1 - Zdel2 N z0 (4 * (1 / (c * c))) k) ^ 2)
        (C0 * (1 - Zdel2 N z0 (4 * (1 / (c * c))) k) ^ 2) i j) A,
     kijLoop N AngTot P (fun k => Zdel2 N z0 (4 * (1 / (c * c))) k ≤ 1)
      (fun k i j => parabola4Body o N P Th (centered CenTypeIn N x0) (centered CenTypeIn N y0)
        (psi_gr1 * (M_PI / 180))
        (a * (1 - Zdel2 N z0 (4 * (1 / (c * c))) k) ^ 2)
        (b * (1 - Zdel2 N z0 (4 * (1 / (c * c))) k) ^ 2)
        (C0 * (1 - Zdel2 N z0 (4 * (1 / (c * c))) k) ^ 2) i j) A 0)
  else if Object = 5 then
    (kijLoop N AngTot P (fun k => Zdel2 N z0 (1 / (c * c)) k ≤ 1)
      (fun k i j => coneBody o N P Th (centered CenTypeIn N x0) (centered CenTypeIn N y0)
        (psi_gr1 * (M_PI / 180))
        (a * (1 - Zdel2 N z0 (1 / (c * c)) k) ^ 2) (b * (1 - Zdel2 N z0 (1 / (c * c)) k) ^ 2)
        (C0 * (1 - Zdel2 N z0 (1 / (c * c)) k) ^ 2) i j) A,
     kijLoop N AngTot P (fun k => Zdel2 N z0 (1 / (c * c)) k ≤ 1)
      (fun k i j => coneBody o N P Th (centered CenTypeIn N x0) (centered CenTypeIn N y0)
        (psi_gr1 * (M_PI / 180))
        (a * (1 - Zdel2 N z0 (1 / (c * c)) k) ^ 2) (b * (1 - Zdel2 N z0 (1 / (c * c)) k) ^ 2)
        (C0 * (1 - Zdel2 N z0 (1 / (c * c)) k) ^ 2) i j) A 0)
  else if Object = 6 then
    (kijLoop N AngTot P (fun k => |Zdel N z0 k| < 0.5 * c)
      (fun _ i j => rectBody o N P AngTot Th (rectX11 CenTypeIn N y0) (rectY11 CenTypeIn N x0)
        (if psi_gr1 * (M_PI / 180) < 0 then M_PI + psi_gr1 * (M_PI / 180)
         else psi_gr1 * (M_PI / 180)) b a C0 i j) A,
     kijLoop N AngTot P (fun k => |Zdel N z0 k| < 0.5 * c)
      (fun _ i j => rectBody o N P AngTot Th (rectX11 CenTypeIn N y0) (rectY11 CenTypeIn N x0)
        (if psi_gr1 * (M_PI / 180) < 0 then M_PI + psi_gr1 * (M_PI / 180)
         else psi_gr1 * (M_PI / 180)) b a C0 i j) A 0)
  else (A, 0)

/-! ### The model accumulator `buildSino3D_core` (lines 347-434) -/

/-- One already-parsed primitive record of the model store (spec section 6:
the textual grammar itself is an excluded external collaborator; the
accumulator consumes the ordered, already-parsed sequence). -/
structure Primitive (R : Type) where
  Object : ℤ
  C0 : R
  x0 : R
  y0 : R
  z0 : R
  a : R
  b : R
  c : R
  psi_gr1 : R
  psi_gr2 : R
  psi_gr3 : R

/-- Modelled from the spec: `parameters_check3D` is called by
`buildSino3D_core` (line 421) but its definition is not among the provided
sources.  Per spec section 4.2 it passes (returns `0`) exactly when every
extent is positive and the centre lies within the implementation-defined
normalized margin of plus-minus 2; any failure is the non-zero return that
makes the accumulator skip the primitive. -/
def parameters_check3D (C0 x0 y0 z0 a b c : R) : ℤ :=
  if 0 < a ∧ 0 < b ∧ 0 < c ∧ |x0| ≤ 2 ∧ |y0| ≤ 2 ∧ |z0| ≤ 2 then 0 else 1

/-- The component loop of `buildSino3D_core` (lines 401-428) over the ordered
primitive sequence of the selected model: each record is validated, and on a
passing check `buildSino3D_core_single` is invoked; its return value is
ignored and the loop always continues with the next record.  The file-reading
of the model store is the out-of-scope external collaborator (spec section 1)
and is represented by the already-parsed list `prims`. -/
def buildSino3D_core (o : Ops R) (A : Buf R) (N P : ℕ) (Th : ℕ → R) (AngTot : ℕ)
    (CenTypeIn : ℤ) (prims : List (Primitive R)) (a1_uninit b1_uninit : R) : Buf R :=
  prims.foldl (fun Acur pr =>
    if parameters_check3D pr.C0 pr.x0 pr.y0 pr.z0 pr.a pr.b pr.c = 0 then
      (buildSino3D_core_single o Acur N P Th AngTot CenTypeIn pr.Object pr.C0 pr.x0 pr.y0
        pr.z0 pr.a pr.b pr.c pr.psi_gr1 pr.psi_gr2 pr.psi_gr3 a1_uninit b1_uninit).1
    else Acur) A

/-! ### Derived contribution functions -/

/-- The per-cell contribution of one `buildSino3D_core_single` invocation:
what the dispatch adds to cell `(k, i, j)`, independently of the buffer. -/
def singleContrib (o : Ops R) (N P : ℕ) (Th : ℕ → R) (AngTot : ℕ) (CenTypeIn : ℤ)
    (Object : ℤ) (C0 x0 y0 z0 a b c psi_gr1 : R) (a1_uninit b1_uninit : R)
    (k i j : ℕ) : R :=
  if Object = 1 then
    blobVal o N P Th (centered CenTypeIn N x0) (centered CenTypeIn N y0)
      (psi_gr1 * (M_PI / 180)) C0 a1_uninit b1_uninit i j
  else if Object = 2 then
    (if Zdel2 N z0 (1 / (c * c)) k ≤ 1 then
      parabola2Body o N P Th (centered CenTypeIn N x0) (centered CenTypeIn N y0)
        (psi_gr1 * (M_PI / 180))
        (a * (1 - Zdel2 N z0 (1 / (c * c)) k) ^ 2) (b * (1 - Zdel2 N z0 (1 / (c * c)) k) ^ 2)
        (C0 * (1 - Zdel2 N z0 (1 / (c * c)) k) ^ 2) i j
    else 0)
  else if Object = 3 then
    (if Zdel2 N z0 (1 / (c * c)) k ≤ 1 then
      diskBody o N P Th (centered CenTypeIn N x0) (centered CenTypeIn N y0)
        (psi_gr1 * (M_PI / 180)) C0 a b i j
    else 0)
  else if Object = 4 then
    (if Zdel2 N z0 (4 * (1 / (c * c))) k ≤ 1 then
      parabola4Body o N P Th (centered CenTypeIn N x0) (centered CenTypeIn N y0)
        (psi_gr1 * (M_PI / 180))
        (a * (1 - Zdel2 N z0 (4 * (1 / (c * c))) k) ^ 2)
        (b * (1 - Zdel2 N z0 (4 * (1 / (c * c))) k) ^ 2)
        (C0 * (1 - Zdel2 N z0 (4 * (1 / (c * c))) k) ^ 2) i j
    else 0)
  else if Object = 5 then
    (if Zdel2 N z0 (1 / (c * c)) k ≤ 1 then
      coneBody o N P Th (centered CenTypeIn N x0) (centered CenTypeIn N y0)
        (psi_gr1 * (M_PI / 180))
        (a * (1 - Zdel2 N z0 (1 / (c * c)) k) ^ 2) (b * (1 - Zdel2 N z0 (1 / (c * c)) k) ^ 2)
        (C0 * (1 - Zdel2 N z0 (1 / (c * c)) k) ^ 2) i j
    else 0)
  else if Object = 6 then
    (if |Zdel N z0 k| < 0.5 * c then
      rectBody o N P AngTot Th (rectX11 CenTypeIn N y0) (rectY11 CenTypeIn N x0)
        (if psi_gr1 * (M_PI / 180) < 0 then M_PI + psi_gr1 * (M_PI / 180)
         else psi_gr1 * (M_PI / 180)) b a C0 i j
    else 0)
  else 0

/-- The per-cell contribution of one primitive record as processed by the
accumulator loop: zero when the validator rejects it. -/
def primContrib (o : Ops R) (N P : ℕ) (Th : ℕ → R) (AngTot : ℕ) (CenTypeIn : ℤ)
    (pr : Primitive R) (a1_uninit b1_uninit : R) (k i j : ℕ) : R :=
  if parameters_check3D pr.C0 pr.x0 pr.y0 pr.z0 pr.a pr.b pr.c = 0 then
    singleContrib o N P Th AngTot CenTypeIn pr.Object pr.C0 pr.x0 pr.y0 pr.z0
      pr.a pr.b pr.c pr.psi_gr1 a1_uninit b1_uninit k i j
  else 0

/-! ### Definitions used to state the slice-modulation and centering claims -/

/-- The cross-section shrink factor of spec section 4.4:
`(1 - (distance/extent)^2)^2`. -/
def shrink (d c : R) : R := (1 - (d / c) ^ 2) ^ 2

/-- Modelled from the spec (section 4.4, the statement under test in claim
C4): the elliptical-disk per-cell contribution as it would be if both the
effective 2D semi-axes and the effective peak intensity were rescaled by the
shrink factor for the slice at signed distance `d` from the third-axis
centre. -/
def diskBodyRescaledClaim (o : Ops R) (N P : ℕ) (Th : ℕ → R)
    (x00 y00 phi_rot_radian C0 a b d c : R) (i j : ℕ) : R :=
  diskBody o N P Th x00 y00 phi_rot_radian
    (C0 * shrink d c) (a * shrink d c) (b * shrink d c) i j

/-- The centre offset selected by a centering convention: a full spatial step
for `CenTypeIn = 0`, a half step otherwise. -/
def convOffset (CenTypeIn : ℤ) (N : ℕ) : R := if CenTypeIn = 0 then H_x N else 0.5 * H_x N

/-- `buildSino3D_core_single` with the convention-dependent centre parameters
`x00`, `y00`, `x11`, `y11` lifted out as explicit arguments: the part of the
computation that does not mention the centering convention at all. -/
def buildSino3D_core_single_centered (o : Ops R) (A : Buf R) (N P : ℕ) (Th : ℕ → R)
    (AngTot : ℕ) (Object : ℤ) (C0 z0 a b c psi_gr1 : R) (a1_uninit b1_uninit : R)
    (x00 y00 x11 y11 : R) : Buf R × R :=
  if Object = 1 then
    (kijLoop N AngTot P (fun _ => True)
      (fun _ i j => blobVal o N P Th x00 y00 (psi_gr1 * (M_PI / 180)) C0
        a1_uninit b1_uninit i j) A,
     kijLoop N AngTot P (fun _ => True)
      (fun _ i j => blobVal o N P Th x00 y00 (psi_gr1 * (M_PI / 180)) C0
        a1_uninit b1_uninit i j) A 0)
  else if Object = 2 then
    (kijLoop N AngTot P (fun k => Zdel2 N z0 (1 / (c * c)) k ≤ 1)
      (fun k i j => parabola2Body o N P Th x00 y00 (psi_gr1 * (M_PI / 180))
        (a * (1 - Zdel2 N z0 (1 / (c * c)) k) ^ 2) (b * (1 - Zdel2 N z0 (1 / (c * c)) k) ^ 2)
        (C0 * (1 - Zdel2 N z0 (1 / (c * c)) k) ^ 2) i j) A,
     kijLoop N AngTot P (fun k => Zdel2 N z0 (1 / (c * c)) k ≤ 1)
      (fun k i j => parabola2Body o N P Th x00 y00 (psi_gr1 * (M_PI / 180))
        (a * (1 - Zdel2 N z0 (1 / (c * c)) k) ^ 2) (b * (1 - Zdel2 N z0 (1 / (c * c)) k) ^ 2)
        (C0 * (1 - Zdel2 N z0 (1 / (c * c)) k) ^ 2) i j) A 0)
  else if Object = 3 then
    (kijLoop N AngTot P (fun k => Zdel2 N z0 (1 / (c * c)) k ≤ 1)
      (fun _ i j => diskBody o N P Th x00 y00 (psi_gr1 * (M_PI / 180)) C0 a b i j) A,
     kijLoop N AngTot P (fun k => Zdel2 N z0 (1 / (c * c)) k ≤ 1)
      (fun _ i j => diskBody o N P Th x00 y00 (psi_gr1 * (M_PI / 180)) C0 a b i j) A 0)
  else if Object = 4 then
    (kijLoop N AngTot P (fun k => Zdel2 N z0 (4 * (1 / (c * c))) k ≤ 1)
      (fun k i j => parabola4Body o N P Th x00 y00 (psi_gr1 * (M_PI / 180))
        (a * (1 - Zdel2 N z0 (4 * (1 / (c * c))) k) ^ 2)
        (b * (1 - Zdel2 N z0 (4 * (1 / (c * c))) k) ^ 2)
        (C0 * (1 - Zdel2 N z0 (4 * (1 / (c * c))) k) ^ 2) i j) A,
     kijLoop N AngTot P (fun k => Zdel2 N z0 (4 * (1 / (c * c))) k ≤ 1)
      (fun k i j => parabola4Body o N P Th x00 y00 (psi_gr1 * (M_PI / 180))
        (a * (1 - Zdel2 N z0 (4 * (1 / (c * c))) k) ^ 2)
        (b * (1 - Zdel2 N z0 (4 * (1 / (c * c))) k) ^ 2)
        (C0 * (1 - Zdel2 N z0 (4 * (1 / (c * c))) k) ^ 2) i j) A 0)
  else if Object = 5 then
    (kijLoop N AngTot P (fun k => Zdel2 N z0 (1 / (c * c)) k ≤ 1)
      (fun k i j => coneBody o N P Th x00 y00 (psi_gr1 * (M_PI / 180))
        (a * (1 - Zdel2 N z0 (1 / (c * c)) k) ^ 2) (b * (1 - Zdel2 N z0 (1 / (c * c)) k) ^ 2)
        (C0 * (1 - Zdel2 N z0 (1 / (c * c)) k) ^ 2) i j) A,
     kijLoop N AngTot P (fun k => Zdel2 N z0 (1 / (c * c)) k ≤ 1)
      (fun k i j => coneBody o N P Th x00 y00 (psi_gr1 * (M_PI / 180))
        (a * (1 - Zdel2 N z0 (1 / (c * c)) k) ^ 2) (b * (1 - Zdel2 N z0 (1 / (c * c)) k) ^ 2)
        (C0 * (1 - Zdel2 N z0 (1 / (c * c)) k) ^ 2) i j) A 0)
  else if Object = 6 then
    (kijLoop N AngTot P (fun k => |Zdel N z0 k| < 0.5 * c)
      (fun _ i j => rectBody o N P AngTot Th x11 y11
        (if psi_gr1 * (M_PI / 180) < 0 then M_PI + psi_gr1 * (M_PI / 180)
         else psi_gr1 * (M_PI / 180)) b a C0 i j) A,
     kijLoop N AngTot P (fun k => |Zdel N z0 k| < 0.5 * c)
      (fun _ i j => rectBody o N P AngTot Th x11 y11
        (if psi_gr1 * (M_PI / 180) < 0 then M_PI + psi_gr1 * (M_PI / 180)
         else psi_gr1 * (M_PI / 180)) b a C0 i j) A 0)
  else (A, 0)

/-! ## Loop decomposition lemmas -/

theorem addAt_self (idx : ℕ) (v : R) (A : Buf R) : addAt idx v A idx = A idx + v := by
  simp [addAt]

theorem addAt_other {m idx : ℕ} (h : m ≠ idx) (v : R) (A : Buf R) : addAt idx v A m = A m := by
  simp [addAt, h]

theorem foldl_preserve (l : List ℕ) (step : ℕ → Buf R → Buf R) (A : Buf R) (m : ℕ)
    (h : ∀ t ∈ l, ∀ B : Buf R, step t B m = B m) :
    (l.foldl (fun B t => step t B) A) m = A m := by
  induction l generalizing A with
  | nil => rfl
  | cons t l ih =>
    simp only [List.foldl_cons]
    rw [ih _ fun t' ht' B => h t' (List.mem_cons_of_mem _ ht') B,
      h t (List.mem_cons_self t l) A]

theorem foldl_add_single (l : List ℕ) (step : ℕ → Buf R → Buf R) (m : ℕ) (t₀ : ℕ) (c : R)
    (hnd : l.Nodup) (ht₀ : t₀ ∈ l)
    (hother : ∀ t ∈ l, t ≠ t₀ → ∀ B : Buf R, step t B m = B m)
    (hhit : ∀ B : Buf R, step t₀ B m = B m + c)
    (A : Buf R) :
    (l.foldl (fun B t => step t B) A) m = A m + c := by
  induction l generalizing A with
  | nil => cases ht₀
  | cons t l ih =>
    simp only [List.foldl_cons]
    rcases List.mem_cons.mp ht₀ with h | h
    · subst h
      have hnotin : t₀ ∉ l := (List.nodup_cons.mp hnd).1
      rw [foldl_preserve l step (step t₀ A) m fun t' ht' B =>
        hother t' (List.mem_cons_of_mem _ ht') (fun he => hnotin (he ▸ ht')) B]
      exact hhit A
    · rw [ih (List.nodup_cons.mp hnd).2 h
        (fun t' ht' hne B => hother t' (List.mem_cons_of_mem _ ht') hne B) (step t A)]
      have hne : t ≠ t₀ := fun he => (List.nodup_cons.mp hnd).1 (he ▸ h)
      rw [hother t (List.mem_cons_self t l) hne A]

theorem rowdigit_lt_of_stride {t t' W r r' : ℕ} (hr : r < W) (h : t < t') :
    t * W + r < t' * W + r' :=
  calc t * W + r < t * W + W := Nat.add_lt_add_left hr _
    _ = (t + 1) * W := (Nat.succ_mul t W).symm
    _ ≤ t' * W := Nat.mul_le_mul_right W h
    _ ≤ t' * W + r' := Nat.le_add_right _ _

theorem rowdigit_ne {t t' W r r' : ℕ} (hr : r < W) (hr' : r' < W) (hne : t ≠ t') :
    t * W + r ≠ t' * W + r' := by
  rcases Nat.lt_or_ge t t' with h | h
  · exact Nat.ne_of_lt (rowdigit_lt_of_stride hr h)
  · exact (Nat.ne_of_lt (rowdigit_lt_of_stride hr' (lt_of_le_of_ne h (Ne.symm hne)))).symm

theorem cell_lt {P AngTot i j : ℕ} (hi : i < AngTot) (hj : j < P) : i * P + j < P * AngTot :=
  calc i * P + j < i * P + P := Nat.add_lt_add_left hj _
    _ = (i + 1) * P := (Nat.succ_mul i P).symm
    _ ≤ AngTot * P := Nat.mul_le_mul_right P hi
    _ = P * AngTot := Nat.mul_comm _ _

theorem enc_ne {P AngTot : ℕ} {k i j k' i' j' : ℕ}
    (hi : i < AngTot) (hj : j < P) (hi' : i' < AngTot) (hj' : j' < P)
    (hne : ¬(k' = k ∧ i' = i ∧ j' = j)) :
    k * P * AngTot + i * P + j ≠ k' * P * AngTot + i' * P + j' := by
  by_cases hk : k = k'
  · subst hk
    by_cases hii : i = i'
    · subst hii
      have hjj : j ≠ j' := fun he => hne ⟨rfl, rfl, he.symm⟩
      exact fun h => hjj (Nat.add_left_cancel h)
    · intro h
      have h1 : k * P * AngTot + (i * P + j) = k * P * AngTot + (i' * P + j') := by
        rw [← Nat.add_assoc, ← Nat.add_assoc]; exact h
      exact rowdigit_ne hj hj' hii (Nat.add_left_cancel h1)
  · have h1 : k * P * AngTot + i * P + j = k * (P * AngTot) + (i * P + j) := by ring
    have h2 : k' * P * AngTot + i' * P + j' = k' * (P * AngTot) + (i' * P + j') := by ring
    rw [h1, h2]
    exact rowdigit_ne (cell_lt hi hj) (cell_lt hi' hj') hk

/-- Evaluating the shared loop nest at an in-range cell: the cell gains
exactly the value of its own iteration (when the slice condition holds),
and nothing else. -/
theorem kijLoop_apply {N AngTot P : ℕ} (cond : ℕ → Prop) [DecidablePred cond]
    (val : ℕ → ℕ → ℕ → R) (A : Buf R) {k i j : ℕ}
    (hk : k < N) (hi : i < AngTot) (hj : j < P) :
    kijLoop N AngTot P cond val A (k * P * AngTot + i * P + j)
      = A (k * P * AngTot + i * P + j) + (if cond k then val k i j else 0) := by
  have hrow : ∀ k' i', i' < AngTot → ¬(k' = k ∧ i' = i) → ∀ B : Buf R,
      (List.range P).foldl
        (fun Aj j' => addAt (k' * P * AngTot + i' * P + j') (val k' i' j') Aj) B
        (k * P * AngTot + i * P + j) = B (k * P * AngTot + i * P + j) := by
    intro k' i' hi' hne B
    refine foldl_preserve _
      (fun j' B' => addAt (k' * P * AngTot + i' * P + j') (val k' i' j') B') _ _ ?_
    intro j' hj' B'
    exact addAt_other
      (enc_ne hi hj hi' (List.mem_range.mp hj') fun hc => hne ⟨hc.1, hc.2.1⟩) _ _
  have hhitrow : ∀ B : Buf R,
      (List.range P).foldl
        (fun Aj j' => addAt (k * P * AngTot + i * P + j') (val k i j') Aj) B
        (k * P * AngTot + i * P + j) = B (k * P * AngTot + i * P + j) + val k i j := by
    intro B
    refine foldl_add_single _
      (fun j' B' => addAt (k * P * AngTot + i * P + j') (val k i j') B') _ j (val k i j)
      (List.nodup_range P) (List.mem_range.mpr hj) ?_ ?_ B
    · intro j' hj' hne B'
      exact addAt_other
        (enc_ne hi hj hi (List.mem_range.mp hj') fun hc => hne hc.2.2) _ _
    · intro B'
      exact addAt_self _ _ _
  have hplane_miss : ∀ k', k' ≠ k → ∀ B : Buf R,
      (List.range AngTot).foldl (fun Ai i' =>
        (List.range P).foldl
          (fun Aj j' => addAt (k' * P * AngTot + i' * P + j') (val k' i' j') Aj) Ai) B
        (k * P * AngTot + i * P + j) = B (k * P * AngTot + i * P + j) := by
    intro k' hne B
    refine foldl_preserve _ (fun i' B' =>
      (List.range P).foldl
        (fun Aj j' => addAt (k' * P * AngTot + i' * P + j') (val k' i' j') Aj) B') _ _ ?_
    intro i' hi' B'
    exact hrow k' i' (List.mem_range.mp hi') (fun hc => hne hc.1) B'
  have hplane_hit : ∀ B : Buf R,
      (List.range AngTot).foldl (fun Ai i' =>
        (List.range P).foldl
          (fun Aj j' => addAt (k * P * AngTot + i' * P + j') (val k i' j') Aj) Ai) B
        (k * P * AngTot + i * P + j)
        = B (k * P * AngTot + i * P + j) + val k i j := by
    intro B
    refine foldl_add_single _ (fun i' B' =>
      (List.range P).foldl
        (fun Aj j' => addAt (k * P * AngTot + i' * P + j') (val k i' j') Aj) B') _ i
      (val k i j) (List.nodup_range AngTot) (List.mem_range.mpr hi) ?_ hhitrow B
    intro i' hi' hne B'
    exact hrow k i' (List.mem_range.mp hi') (fun hc => hne hc.2) B'
  unfold kijLoop
  refine foldl_add_single _ (fun k' B =>
    if cond k' then
      (List.range AngTot).foldl (fun Ai i' =>
        (List.range P).foldl
          (fun Aj j' => addAt (k' * P * AngTot + i' * P + j') (val k' i' j') Aj) Ai) B
    else B) _ k (if cond k then val k i j else 0)
    (List.nodup_range N) (List.mem_range.mpr hk) ?_ ?_ A
  · intro k' hk' hne B
    by_cases hc : cond k'
    · simpa [hc] using hplane_miss k' hne B
    · simp [hc]
  · intro B
    by_cases hc : cond k
    · simpa [hc] using hplane_hit B
    · simp [hc]

theorem pair_fst (x : Buf R) (y : R) : (x, y).1 = x := rfl

/-- Per-cell decomposition of one `buildSino3D_core_single` invocation: every
in-range cell of the result equals its previous value plus the dispatcher's
per-cell contribution. -/
theorem buildSino3D_core_single_apply (o : Ops R) (A : Buf R) (N P : ℕ) (Th : ℕ → R)
    (AngTot : ℕ) (CenTypeIn : ℤ) (Object : ℤ)
    (C0 x0 y0 z0 a b c psi_gr1 psi_gr2 psi_gr3 : R) (a1_uninit b1_uninit : R)
    {k i j : ℕ} (hk : k < N) (hi : i < AngTot) (hj : j < P) :
    (buildSino3D_core_single o A N P Th AngTot CenTypeIn Object C0 x0 y0 z0 a b c
        psi_gr1 psi_gr2 psi_gr3 a1_uninit b1_uninit).1 (k * P * AngTot + i * P + j)
      = A (k * P * AngTot + i * P + j)
        + singleContrib o N P Th AngTot CenTypeIn Object C0 x0 y0 z0 a b c psi_gr1
            a1_uninit b1_uninit k i j := by
  unfold buildSino3D_core_single singleContrib
  by_cases h1 : Object = 1
  · rw [if_pos h1, if_pos h1, pair_fst, kijLoop_apply _ _ A hk hi hj, if_pos trivial]
  rw [if_neg h1, if_neg h1]
  by_cases h2 : Object = 2
  · rw [if_pos h2, if_pos h2, pair_fst, kijLoop_apply _ _ A hk hi hj]
  rw [if_neg h2, if_neg h2]
  by_cases h3 : Object = 3
  · rw [if_pos h3, if_pos h3, pair_fst, kijLoop_apply _ _ A hk hi hj]
  rw [if_neg h3, if_neg h3]
  by_cases h4 : Object = 4
  · rw [if_pos h4, if_pos h4, pair_fst, kijLoop_apply _ _ A hk hi hj]
  rw [if_neg h4, if_neg h4]
  by_cases h5 : Object = 5
  · rw [if_pos h5, if_pos h5, pair_fst, kijLoop_apply _ _ A hk hi hj]
  rw [if_neg h5, if_neg h5]
  by_cases h6 : Object = 6
  · rw [if_pos h6, if_pos h6, pair_fst, kijLoop_apply _ _ A hk hi hj]
  rw [if_neg h6, if_neg h6, add_zero]

/-- Unfolding one step of the accumulator loop. -/
theorem buildSino3D_core_cons (o : Ops R) (A : Buf R) (N P : ℕ) (Th : ℕ → R) (AngTot : ℕ)
    (CenTypeIn : ℤ) (pr : Primitive R) (prims : List (Primitive R)) (a1_uninit b1_uninit : R) :
    buildSino3D_core o A N P Th AngTot CenTypeIn (pr :: prims) a1_uninit b1_uninit
      = buildSino3D_core o
          (if parameters_check3D pr.C0 pr.x0 pr.y0 pr.z0 pr.a pr.b pr.c = 0 then
            (buildSino3D_core_single o A N P Th AngTot CenTypeIn pr.Object pr.C0 pr.x0 pr.y0
              pr.z0 pr.a pr.b pr.c pr.psi_gr1 pr.psi_gr2 pr.psi_gr3 a1_uninit b1_uninit).1
          else A)
          N P Th AngTot CenTypeIn prims a1_uninit b1_uninit := rfl

/-- Per-cell decomposition of the whole accumulator: every in-range cell of
the final buffer equals its initial value plus the sum of the per-primitive
contributions, in sequence order. -/
theorem buildSino3D_core_apply (o : Ops R) (A : Buf R) (N P : ℕ) (Th : ℕ → R) (AngTot : ℕ)
    (CenTypeIn : ℤ) (prims : List (Primitive R)) (a1_uninit b1_uninit : R)
    {k i j : ℕ} (hk : k < N) (hi : i < AngTot) (hj : j < P) :
    buildSino3D_core o A N P Th AngTot CenTypeIn prims a1_uninit b1_uninit
        (k * P * AngTot + i * P + j)
      = A (k * P * AngTot + i * P + j)
        + (prims.map (fun pr =>
            primContrib o N P Th AngTot CenTypeIn pr a1_uninit b1_uninit k i j)).sum := by
  induction prims generalizing A with
  | nil => simp [buildSino3D_core]
  | cons pr prims ih =>
    rw [buildSino3D_core_cons, ih]
    by_cases hchk : parameters_check3D pr.C0 pr.x0 pr.y0 pr.z0 pr.a pr.b pr.c = 0
    · rw [if_pos hchk,
        buildSino3D_core_single_apply o A N P Th AngTot CenTypeIn pr.Object pr.C0 pr.x0 pr.y0
          pr.z0 pr.a pr.b pr.c pr.psi_gr1 pr.psi_gr2 pr.psi_gr3 a1_uninit b1_uninit hk hi hj]
      simp [primContrib, hchk, add_assoc]
    · rw [if_neg hchk]
      simp [primContrib, hchk]

/-- For a shape tag outside 1..6, `buildSino3D_core_single` returns the buffer
untouched together with the error return value `0` (lines 337-340). -/
theorem single_unknown_tag (o : Ops R) (A : Buf R) (N P : ℕ) (Th : ℕ → R) (AngTot : ℕ)
    (CenTypeIn : ℤ) (Object : ℤ) (C0 x0 y0 z0 a b c psi1 psi2 psi3 u v : R)
    (h : ¬(Object = 1 ∨ Object = 2 ∨ Object = 3 ∨ Object = 4 ∨ Object = 5 ∨ Object = 6)) :
    buildSino3D_core_single o A N P Th AngTot CenTypeIn Object C0 x0 y0 z0 a b c
      psi1 psi2 psi3 u v = (A, 0) := by
  push_neg at h
  obtain ⟨h1, h2, h3, h4, h5, h6⟩ := h
  unfold buildSino3D_core_single
  rw [if_neg h1, if_neg h2, if_neg h3, if_neg h4, if_neg h5, if_neg h6]

/-- Claim C1 (counterexample): a model whose sequence is an unknown tag 7
followed by a valid disk leaves the buffer nonzero, so the primitives after
the offending one are not left unprocessed. -/
theorem claim_C1_counterexample :
    buildSino3D_core (R := ℝ) ⟨Real.sin, Real.cos, Real.exp, Real.log, Real.sqrt⟩
      (fun _ => 0) 2 2 (fun _ => 0) 1 1
      [⟨7, 1, 0, 0, 0, 1, 1, 1, 0, 0, 0⟩, ⟨3, 1, 0, 0, 0, 1, 1, 1, 0, 0, 0⟩] 0 0
      (1 * 2 * 1 + 0 * 2 + 1) ≠ 0 := by
  rw [buildSino3D_core_apply _ _ 2 2 _ 1 1 _ 0 0 (by norm_num) (by norm_num) (by norm_num)]
  have hchk : parameters_check3D (R := ℝ) 1 0 0 0 1 1 1 = 0 := by
    rw [parameters_check3D, if_pos (by norm_num)]
  have h7 : singleContrib (R := ℝ) ⟨Real.sin, Real.cos, Real.exp, Real.log, Real.sqrt⟩
      2 2 (fun _ => 0) 1 1 7 1 0 0 0 1 1 1 0 0 0 1 0 1 = 0 := by
    unfold singleContrib
    norm_num
  have hz : Zdel2 (R := ℝ) 2 0 1 1 ≤ 1 := by
    norm_num [Zdel2, Zdel, Tomorange_X_Ar, Tomorange_Xmin, H_x, Tomorange_Xmax]
  have hd : singleContrib (R := ℝ) ⟨Real.sin, Real.cos, Real.exp, Real.log, Real.sqrt⟩
      2 2 (fun _ => 0) 1 1 3 1 0 0 0 1 1 1 0 0 0 1 0 1 = 2 * Real.sqrt (1 - 1/36) := by
    unfold singleContrib
    norm_num [diskBody, AnglesRad, Real.sin_zero, Real.cos_zero, Real.sqrt_one,
      Sinorange_P_Ar, Sinorange_Pmax, Sinorange_Pmin, H_p, centered, H_x,
      Tomorange_Xmax, Tomorange_Xmin, hz]
  have hpos : (0 : ℝ) < Real.sqrt (1 - 1/36) := Real.sqrt_pos.mpr (by norm_num)
  simp only [List.map_cons, List.map_nil, List.sum_cons, List.sum_nil, primContrib]
  simp only [hchk, if_pos]
  norm_num [h7, hd]

/-- Claim C1 (amended): the unknown-tag primitive itself contributes nothing
and produces the error return `0`, but the accumulator does not abort: it
continues processing the remaining primitives of the model. -/
theorem claim_C1_amended (o : Ops R) (A : Buf R) (N P : ℕ) (Th : ℕ → R) (AngTot : ℕ)
    (CenTypeIn : ℤ) (u v : R) :
    (∀ (Object : ℤ) (C0 x0 y0 z0 a b c psi1 psi2 psi3 : R),
      ¬(Object = 1 ∨ Object = 2 ∨ Object = 3 ∨ Object = 4 ∨ Object = 5 ∨ Object = 6) →
      buildSino3D_core_single o A N P Th AngTot CenTypeIn Object C0 x0 y0 z0 a b c
        psi1 psi2 psi3 u v = (A, 0))
    ∧ (∀ (pr : Primitive R) (rest : List (Primitive R)),
      ¬(pr.Object = 1 ∨ pr.Object = 2 ∨ pr.Object = 3 ∨ pr.Object = 4 ∨ pr.Object = 5 ∨
          pr.Object = 6) →
      buildSino3D_core o A N P Th AngTot CenTypeIn (pr :: rest) u v
        = buildSino3D_core o A N P Th AngTot CenTypeIn rest u v) := by
  constructor
  · intro Object C0 x0 y0 z0 a b c psi1 psi2 psi3 h
    exact single_unknown_tag o A N P Th AngTot CenTypeIn Object C0 x0 y0 z0 a b c
      psi1 psi2 psi3 u v h
  · intro pr rest h
    rw [buildSino3D_core_cons]
    by_cases hchk : parameters_check3D pr.C0 pr.x0 pr.y0 pr.z0 pr.a pr.b pr.c = 0
    · rw [if_pos hchk, single_unknown_tag o A N P Th AngTot CenTypeIn pr.Object pr.C0 pr.x0
        pr.y0 pr.z0 pr.a pr.b pr.c pr.psi_gr1 pr.psi_gr2 pr.psi_gr3 u v h]
    · rw [if_neg hchk]

/-- Witness for the amended claim C1 at the concrete tag 7. -/
theorem claim_C1_amended_witness :
    buildSino3D_core (R := ℚ) ⟨id, id, id, id, id⟩ (fun _ => 0) 2 2 (fun _ => 0) 1 1
        ([⟨7, 1, 0, 0, 0, 1, 1, 1, 0, 0, 0⟩] : List (Primitive ℚ)) 0 0
      = buildSino3D_core ⟨id, id, id, id, id⟩ (fun _ => 0) 2 2 (fun _ => 0) 1 1 [] 0 0 :=
  (claim_C1_amended ⟨id, id, id, id, id⟩ (fun _ => 0) 2 2 (fun _ => 0) 1 1 0 0).2
    ⟨7, 1, 0, 0, 0, 1, 1, 1, 0, 0, 0⟩ [] (by decide)

/-- Claim C2: contributions are purely additive: each in-range cell of the
final buffer equals its initial value plus the sum of the per-primitive
contributions, and in particular projecting a two-primitive model into a zero
buffer equals the cell-wise sum of the two singleton projections. -/
theorem claim_C2 (o : Ops R) (A : Buf R) (N P : ℕ) (Th : ℕ → R) (AngTot : ℕ)
    (CenTypeIn : ℤ) (prims : List (Primitive R)) (u v : R)
    {k i j : ℕ} (hk : k < N) (hi : i < AngTot) (hj : j < P) :
    (buildSino3D_core o A N P Th AngTot CenTypeIn prims u v (k * P * AngTot + i * P + j)
      = A (k * P * AngTot + i * P + j)
        + (prims.map (fun pr =>
            primContrib o N P Th AngTot CenTypeIn pr u v k i j)).sum)
    ∧ ∀ pA pB : Primitive R,
        buildSino3D_core o (fun _ => 0) N P Th AngTot CenTypeIn [pA, pB] u v
            (k * P * AngTot + i * P + j)
          = buildSino3D_core o (fun _ => 0) N P Th AngTot CenTypeIn [pA] u v
              (k * P * AngTot + i * P + j)
            + buildSino3D_core o (fun _ => 0) N P Th AngTot CenTypeIn [pB] u v
              (k * P * AngTot + i * P + j) := by
  refine ⟨buildSino3D_core_apply o A N P Th AngTot CenTypeIn prims u v hk hi hj, ?_⟩
  intro pA pB
  rw [buildSino3D_core_apply o _ N P Th AngTot CenTypeIn [pA, pB] u v hk hi hj,
    buildSino3D_core_apply o _ N P Th AngTot CenTypeIn [pA] u v hk hi hj,
    buildSino3D_core_apply o _ N P Th AngTot CenTypeIn [pB] u v hk hi hj]
  simp

/-- Witness for claim C2 on a concrete one-primitive model. -/
theorem claim_C2_witness :
    (0 < 1 ∧ 0 < 1 ∧ 0 < 1)
    ∧ ((buildSino3D_core (R := ℚ) ⟨id, id, id, id, id⟩ (fun _ => 0) 1 1 (fun _ => 0) 1 1
          [⟨3, 1, 0, 0, 0, 1, 1, 1, 0, 0, 0⟩] 0 0 (0 * 1 * 1 + 0 * 1 + 0)
        = (fun _ => (0 : ℚ)) (0 * 1 * 1 + 0 * 1 + 0)
          + (([⟨3, 1, 0, 0, 0, 1, 1, 1, 0, 0, 0⟩] : List (Primitive ℚ)).map (fun pr =>
              primContrib ⟨id, id, id, id, id⟩ 1 1 (fun _ => 0) 1 1 pr 0 0 0 0 0)).sum)
      ∧ ∀ pA pB : Primitive ℚ,
          buildSino3D_core ⟨id, id, id, id, id⟩ (fun _ => 0) 1 1 (fun _ => 0) 1 1 [pA, pB] 0 0
              (0 * 1 * 1 + 0 * 1 + 0)
            = buildSino3D_core ⟨id, id, id, id, id⟩ (fun _ => 0) 1 1 (fun _ => 0) 1 1 [pA] 0 0
                (0 * 1 * 1 + 0 * 1 + 0)
              + buildSino3D_core ⟨id, id, id, id, id⟩ (fun _ => 0) 1 1 (fun _ => 0) 1 1 [pB] 0 0
                (0 * 1 * 1 + 0 * 1 + 0)) :=
  ⟨⟨by decide, by decide, by decide⟩,
    claim_C2 ⟨id, id, id, id, id⟩ (fun _ => 0) 1 1 (fun _ => 0) 1 1
      [⟨3, 1, 0, 0, 0, 1, 1, 1, 0, 0, 0⟩] 0 0 (by decide) (by decide) (by decide)⟩

/-- Claim C7: for `N > 0`, `P > 1` the grid builder produces the detector
array of length `P`, linearly spaced with step `-H_p`, strictly descending,
symmetric about zero with extreme values plus and minus `P/(N+1)`; the spatial
array of length `N` with values `-1 + i*(2/N)` lying in the interval from -1
inclusive to 1 exclusive with spacing `2/N`; and the radian angles of length
`AngTot` with entry `i` equal to `Th i * (M_PI/180)`, order preserved. -/
theorem claim_C7 (N P : ℕ) (Th : ℕ → R) (AngTot : ℕ) (hN : 0 < N) (hP : 1 < P) :
    (detectorOffsets R N P).length = P
    ∧ (∀ i, Sinorange_P_Ar (R := R) N P (i + 1) = Sinorange_P_Ar N P i - H_p N P)
    ∧ (∀ i, Sinorange_P_Ar (R := R) N P (i + 1) < Sinorange_P_Ar N P i)
    ∧ (∀ i, i < P → Sinorange_P_Ar (R := R) N P i + Sinorange_P_Ar N P (P - 1 - i) = 0)
    ∧ Sinorange_P_Ar N P 0 = (P : R) / ((N : R) + 1)
    ∧ Sinorange_P_Ar N P (P - 1) = -((P : R) / ((N : R) + 1))
    ∧ (spatialCoords R N).length = N
    ∧ (∀ i, Tomorange_X_Ar N i = -1 + (i : R) * (2 / (N : R)))
    ∧ (∀ i, i < N → -1 ≤ Tomorange_X_Ar (R := R) N i ∧ Tomorange_X_Ar (R := R) N i < 1)
    ∧ (∀ i, Tomorange_X_Ar N (i + 1) - Tomorange_X_Ar N i = 2 / (N : R))
    ∧ (anglesRadList R Th AngTot).length = AngTot
    ∧ (∀ i, AnglesRad Th i = Th i * (M_PI / 180)) := by
  have hPR : (1 : R) < (P : R) := by exact_mod_cast hP
  have hP0 : (0 : R) < (P : R) := by linarith
  have hP1 : ((P : R) - 1) ≠ 0 := by linarith
  have hNR : (0 : R) < (N : R) := by exact_mod_cast hN
  have hN1 : ((N : R) + 1) ≠ 0 := by linarith
  have hPmax : (0 : R) < Sinorange_Pmax N P := div_pos hP0 (by linarith)
  have hHp : (0 : R) < H_p N P := by
    rw [H_p, Sinorange_Pmin]
    exact div_pos (by linarith) (by linarith)
  have hstep : ∀ i, Sinorange_P_Ar (R := R) N P (i + 1) = Sinorange_P_Ar N P i - H_p N P := by
    intro i
    rw [Sinorange_P_Ar, Sinorange_P_Ar]
    push_cast
    ring
  refine ⟨by simp [detectorOffsets], hstep, fun i => by rw [hstep i]; linarith, ?_, ?_, ?_,
    by simp [spatialCoords], ?_, ?_, ?_, by simp [anglesRadList], fun i => rfl⟩
  · intro i hi
    have hc : ((P - 1 - i : ℕ) : R) = (P : R) - 1 - (i : R) := by
      rw [Nat.cast_sub (by omega : i ≤ P - 1), Nat.cast_sub (by omega : 1 ≤ P), Nat.cast_one]
    rw [Sinorange_P_Ar, Sinorange_P_Ar, hc, H_p, Sinorange_Pmin, Sinorange_Pmax]
    field_simp
    ring
  · rw [Sinorange_P_Ar, Sinorange_Pmax]
    norm_num
  · have hc : ((P - 1 : ℕ) : R) = (P : R) - 1 := by
      rw [Nat.cast_sub (by omega : 1 ≤ P), Nat.cast_one]
    rw [Sinorange_P_Ar, hc, H_p, Sinorange_Pmin, Sinorange_Pmax]
    field_simp
    ring
  · intro i
    rw [Tomorange_X_Ar, H_x, Tomorange_Xmin, Tomorange_Xmax]
    norm_num
  · intro i hi
    have hiR : (i : R) < (N : R) := by exact_mod_cast hi
    have h2N : (0 : R) < 2 / (N : R) := by positivity
    constructor
    · rw [Tomorange_X_Ar, H_x, Tomorange_Xmin, Tomorange_Xmax]
      have : (0 : R) ≤ (i : R) * ((1 - -1) / (N : R)) := by positivity
      linarith
    · rw [Tomorange_X_Ar, H_x, Tomorange_Xmin, Tomorange_Xmax]
      have h1 : (i : R) * ((1 - -1) / (N : R)) < (N : R) * ((1 - -1) / (N : R)) := by
        have : ((1 - -1 : R) / (N : R)) = 2 / (N : R) := by norm_num
        rw [this]
        exact mul_lt_mul_of_pos_right hiR h2N
      have h2 : (N : R) * ((1 - -1 : R) / (N : R)) = 2 := by
        field_simp
        norm_num
      linarith
  · intro i
    rw [Tomorange_X_Ar, Tomorange_X_Ar, H_x, Tomorange_Xmin, Tomorange_Xmax]
    push_cast
    ring

/-- Witness for claim C7 at `N = 1`, `P = 2`. -/
theorem claim_C7_witness :
    (0 < 1 ∧ 1 < 2)
    ∧ ((detectorOffsets ℚ 1 2).length = 2
      ∧ (∀ i, Sinorange_P_Ar (R := ℚ) 1 2 (i + 1) = Sinorange_P_Ar 1 2 i - H_p 1 2)
      ∧ (∀ i, Sinorange_P_Ar (R := ℚ) 1 2 (i + 1) < Sinorange_P_Ar 1 2 i)
      ∧ (∀ i, i < 2 → Sinorange_P_Ar (R := ℚ) 1 2 i + Sinorange_P_Ar 1 2 (2 - 1 - i) = 0)
      ∧ Sinorange_P_Ar (R := ℚ) 1 2 0 = ((2 : ℕ) : ℚ) / (((1 : ℕ) : ℚ) + 1)
      ∧ Sinorange_P_Ar (R := ℚ) 1 2 (2 - 1) = -(((2 : ℕ) : ℚ) / (((1 : ℕ) : ℚ) + 1))
      ∧ (spatialCoords ℚ 1).length = 1
      ∧ (∀ i, Tomorange_X_Ar (R := ℚ) 1 i = -1 + (i : ℚ) * (2 / ((1 : ℕ) : ℚ)))
      ∧ (∀ i, i < 1 → -1 ≤ Tomorange_X_Ar (R := ℚ) 1 i ∧ Tomorange_X_Ar (R := ℚ) 1 i < 1)
      ∧ (∀ i, Tomorange_X_Ar (R := ℚ) 1 (i + 1) - Tomorange_X_Ar 1 i = 2 / ((1 : ℕ) : ℚ))
      ∧ (anglesRadList ℚ (fun _ => 0) 3).length = 3
      ∧ (∀ i, AnglesRad (R := ℚ) (fun _ => 0) i = (fun _ => (0 : ℚ)) i * (M_PI / 180))) :=
  ⟨⟨by decide, by decide⟩, claim_C7 1 2 (fun _ => 0) 3 (by decide) (by decide)⟩

/-- Claim C8: the per-primitive computation depends on the centering
convention only through the centre offsets: `buildSino3D_core_single` equals
the convention-free `buildSino3D_core_single_centered` applied at the shifted
centres, and the two conventions produce numerically distinct full-step and
half-step offsets. -/
theorem claim_C8 (o : Ops R) (A : Buf R) (N P : ℕ) (Th : ℕ → R) (AngTot : ℕ)
    (CenTypeIn : ℤ) (Object : ℤ) (C0 x0 y0 z0 a b c psi1 psi2 psi3 u v : R) :
    (buildSino3D_core_single o A N P Th AngTot CenTypeIn Object C0 x0 y0 z0 a b c
        psi1 psi2 psi3 u v
      = buildSino3D_core_single_centered o A N P Th AngTot Object C0 z0 a b c psi1 u v
          (x0 + convOffset CenTypeIn N) (y0 + convOffset CenTypeIn N)
          (-2 * y0 - convOffset CenTypeIn N) (2 * x0 + convOffset CenTypeIn N))
    ∧ (0 < N → convOffset (R := R) 0 N ≠ convOffset 1 N) := by
  constructor
  · unfold buildSino3D_core_single buildSino3D_core_single_centered
    by_cases hc : CenTypeIn = 0 <;>
      simp [hc, centered, rectX11, rectY11, convOffset, sub_eq_add_neg]
  · intro hN
    have hNR : (0 : R) < (N : R) := by exact_mod_cast hN
    have hH : H_x (R := R) N = 2 / (N : R) := by
      rw [H_x, Tomorange_Xmax, Tomorange_Xmin]; norm_num
    have hpos : (0 : R) < H_x (R := R) N := by
      rw [hH]; positivity
    unfold convOffset
    rw [if_pos rfl, if_neg (by decide : ¬((1 : ℤ) = 0))]
    intro h
    nlinarith [h, hpos]

/-- Witness for claim C8 at convention 1 and `N = 1`. -/
theorem claim_C8_witness :
    (buildSino3D_core_single (R := ℚ) ⟨id, id, id, id, id⟩ (fun _ => 0) 1 1 (fun _ => 0) 1
        1 6 1 0 0 0 1 1 1 0 0 0 0 0
      = buildSino3D_core_single_centered ⟨id, id, id, id, id⟩ (fun _ => 0) 1 1 (fun _ => 0) 1
          6 1 0 1 1 1 0 0 0
          (0 + convOffset 1 1) (0 + convOffset 1 1)
          (-2 * 0 - convOffset 1 1) (2 * 0 + convOffset 1 1))
    ∧ (0 < 1 ∧ convOffset (R := ℚ) 0 1 ≠ convOffset 1 1) :=
  ⟨(claim_C8 ⟨id, id, id, id, id⟩ (fun _ => 0) 1 1 (fun _ => 0) 1 1 6
      1 0 0 0 1 1 1 0 0 0 0 0).1,
    by decide,
    (claim_C8 (R := ℚ) ⟨id, id, id, id, id⟩ (fun _ => 0) 1 1 (fun _ => 0) 1 1 6
      1 0 0 0 1 1 1 0 0 0 0 0).2 (by decide)⟩

/-- Claim C10: the rectangle kernel computes the contribution written at
output angle index `i` from the input angle at index `(AngTot-1)-i`, whereas
each of the other five kernels computes it from the input angle at index `i`;
consequently the rectangle sinogram with angle list `Th` coincides, at
reversed output index, with the one built from the reversed angle list. -/
theorem claim_C10 (o : Ops R) (N P AngTot : ℕ)
    (x00 y00 phi C0 a1 b1 C00 x11 y11 ksi1 xw yw : R) (i j : ℕ) :
    (∀ Th Th' : ℕ → R, Th ((AngTot - 1) - i) = Th' ((AngTot - 1) - i) →
      rectBody o N P AngTot Th x11 y11 ksi1 xw yw C0 i j
        = rectBody o N P AngTot Th' x11 y11 ksi1 xw yw C0 i j)
    ∧ (∀ Th Th' : ℕ → R, Th i = Th' i →
      blobVal o N P Th x00 y00 phi C0 a1 b1 i j
        = blobVal o N P Th' x00 y00 phi C0 a1 b1 i j)
    ∧ (∀ Th Th' : ℕ → R, Th i = Th' i →
      parabola2Body o N P Th x00 y00 phi a1 b1 C00 i j
        = parabola2Body o N P Th' x00 y00 phi a1 b1 C00 i j)
    ∧ (∀ Th Th' : ℕ → R, Th i = Th' i →
      diskBody o N P Th x00 y00 phi C0 a1 b1 i j
        = diskBody o N P Th' x00 y00 phi C0 a1 b1 i j)
    ∧ (∀ Th Th' : ℕ → R, Th i = Th' i →
      parabola4Body o N P Th x00 y00 phi a1 b1 C00 i j
        = parabola4Body o N P Th' x00 y00 phi a1 b1 C00 i j)
    ∧ (∀ Th Th' : ℕ → R, Th i = Th' i →
      coneBody o N P Th x00 y00 phi a1 b1 C00 i j
        = coneBody o N P Th' x00 y00 phi a1 b1 C00 i j)
    ∧ (i < AngTot → ∀ Th : ℕ → R,
      rectBody o N P AngTot Th x11 y11 ksi1 xw yw C0 i j
        = rectBody o N P AngTot (fun t => Th ((AngTot - 1) - t)) x11 y11 ksi1 xw yw C0
            ((AngTot - 1) - i) j) := by
  refine ⟨?_, ?_, ?_, ?_, ?_, ?_, ?_⟩
  · intro Th Th' h
    simp only [rectBody, AnglesRad, h]
  · intro Th Th' h
    simp only [blobVal, AnglesRad, h]
  · intro Th Th' h
    simp only [parabola2Body, AnglesRad, h]
  · intro Th Th' h
    simp only [diskBody, AnglesRad, h]
  · intro Th Th' h
    simp only [parabola4Body, AnglesRad, h]
  · intro Th Th' h
    simp only [coneBody, AnglesRad, h]
  · intro hi Th
    have hidx : (AngTot - 1) - ((AngTot - 1) - ((AngTot - 1) - i)) = (AngTot - 1) - i := by
      omega
    simp only [rectBody, AnglesRad, hidx]

/-- Witness for claim C10 at `AngTot = 1`, `i = 0`. -/
theorem claim_C10_witness :
    (0 < 1)
    ∧ rectBody (R := ℚ) ⟨id, id, id, id, id⟩ 1 2 1 (fun _ => 0) 0 0 0 1 1 1 0 0
      = rectBody ⟨id, id, id, id, id⟩ 1 2 1 (fun t => (fun _ => (0 : ℚ)) ((1 - 1) - t))
          0 0 0 1 1 1 ((1 - 1) - 0) 0 :=
  ⟨by decide,
    (claim_C10 ⟨id, id, id, id, id⟩ 1 2 1 0 0 0 1 0 0 0 0 0 0 1 1 0 0).2.2.2.2.2.2
      (by decide) (fun _ => 0)⟩

theorem parabola2Body_eq_zero (o : Ops R) (N P : ℕ) (Th : ℕ → R)
    (x00 y00 phi a1 b1 C00 : R) (i j : ℕ)
    (h : 1 ≤ parabola2NSD o N P Th x00 y00 phi a1 b1 i j) :
    parabola2Body o N P Th x00 y00 phi a1 b1 C00 i j = 0 := by
  simp only [parabola2NSD] at h
  simp only [parabola2Body]
  rw [if_neg (not_lt.mpr h)]

theorem diskBody_eq_zero (o : Ops R) (N P : ℕ) (Th : ℕ → R)
    (x00 y00 phi C0 a b : R) (i j : ℕ)
    (h : 1 ≤ diskNSD o N P Th x00 y00 phi a b i j) :
    diskBody o N P Th x00 y00 phi C0 a b i j = 0 := by
  simp only [diskNSD] at h
  simp only [diskBody]
  rw [if_neg (not_lt.mpr h)]

theorem parabola4Body_eq_zero (o : Ops R) (N P : ℕ) (Th : ℕ → R)
    (x00 y00 phi a1 b1 C00 : R) (i j : ℕ)
    (h : 1 ≤ parabola4NSD o N P Th x00 y00 phi a1 b1 i j) :
    parabola4Body o N P Th x00 y00 phi a1 b1 C00 i j = 0 := by
  simp only [parabola4NSD] at h
  simp only [parabola4Body]
  rw [if_neg (not_lt.mpr h)]

/-- Claim C3: for the two parabola shapes and the elliptical disk, any cell
whose normalized squared distance `AA6` is at least 1 is skipped: the kernel
leaves that cell of the buffer exactly unchanged. -/
theorem claim_C3 (o : Ops R) (A : Buf R) (N P : ℕ) (Th : ℕ → R) (AngTot : ℕ)
    (CenTypeIn : ℤ) (C0 x0 y0 z0 a b c psi1 psi2 psi3 u v : R)
    {k i j : ℕ} (hk : k < N) (hi : i < AngTot) (hj : j < P) :
    (1 ≤ parabola2NSD o N P Th (centered CenTypeIn N x0) (centered CenTypeIn N y0)
        (psi1 * (M_PI / 180)) (a * (1 - Zdel2 N z0 (1 / (c * c)) k) ^ 2)
        (b * (1 - Zdel2 N z0 (1 / (c * c)) k) ^ 2) i j →
      (buildSino3D_core_single o A N P Th AngTot CenTypeIn 2 C0 x0 y0 z0 a b c
          psi1 psi2 psi3 u v).1 (k * P * AngTot + i * P + j)
        = A (k * P * AngTot + i * P + j))
    ∧ (1 ≤ diskNSD o N P Th (centered CenTypeIn N x0) (centered CenTypeIn N y0)
        (psi1 * (M_PI / 180)) a b i j →
      (buildSino3D_core_single o A N P Th AngTot CenTypeIn 3 C0 x0 y0 z0 a b c
          psi1 psi2 psi3 u v).1 (k * P * AngTot + i * P + j)
        = A (k * P * AngTot + i * P + j))
    ∧ (1 ≤ parabola4NSD o N P Th (centered CenTypeIn N x0) (centered CenTypeIn N y0)
        (psi1 * (M_PI / 180)) (a * (1 - Zdel2 N z0 (4 * (1 / (c * c))) k) ^ 2)
        (b * (1 - Zdel2 N z0 (4 * (1 / (c * c))) k) ^ 2) i j →
      (buildSino3D_core_single o A N P Th AngTot CenTypeIn 4 C0 x0 y0 z0 a b c
          psi1 psi2 psi3 u v).1 (k * P * AngTot + i * P + j)
        = A (k * P * AngTot + i * P + j)) := by
  refine ⟨?_, ?_, ?_⟩
  · intro h
    rw [buildSino3D_core_single_apply o A N P Th AngTot CenTypeIn 2 C0 x0 y0 z0 a b c
      psi1 psi2 psi3 u v hk hi hj]
    unfold singleContrib
    rw [if_neg (by decide : ¬((2 : ℤ) = 1)), if_pos rfl,
      parabola2Body_eq_zero o N P Th _ _ _ _ _ _ i j h]
    simp
  · intro h
    rw [buildSino3D_core_single_apply o A N P Th AngTot CenTypeIn 3 C0 x0 y0 z0 a b c
      psi1 psi2 psi3 u v hk hi hj]
    unfold singleContrib
    rw [if_neg (by decide : ¬((3 : ℤ) = 1)), if_neg (by decide : ¬((3 : ℤ) = 2)), if_pos rfl,
      diskBody_eq_zero o N P Th _ _ _ _ _ _ i j h]
    simp
  · intro h
    rw [buildSino3D_core_single_apply o A N P Th AngTot CenTypeIn 4 C0 x0 y0 z0 a b c
      psi1 psi2 psi3 u v hk hi hj]
    unfold singleContrib
    rw [if_neg (by decide : ¬((4 : ℤ) = 1)), if_neg (by decide : ¬((4 : ℤ) = 2)),
      if_neg (by decide : ¬((4 : ℤ) = 3)), if_pos rfl,
      parabola4Body_eq_zero o N P Th _ _ _ _ _ _ i j h]
    simp

/-- Witness for claim C3: with the angle functions evaluated to 0 and 1, the
out-of-support detector offset has normalized squared distance at least 1 for
all three shapes. -/
theorem claim_C3_witness :
    ((0 : ℕ) < 1 ∧ (0 : ℕ) < 1 ∧ (0 : ℕ) < 2)
    ∧ (1 ≤ parabola2NSD (R := ℚ) ⟨fun _ => 0, fun _ => 1, id, id, id⟩ 1 2 (fun _ => 0)
        (centered 1 1 0) (centered 1 1 0) (0 * (M_PI / 180))
        (1 * (1 - Zdel2 1 (-1) (1 / (1 * 1)) 0) ^ 2)
        (1 * (1 - Zdel2 1 (-1) (1 / (1 * 1)) 0) ^ 2) 0 0)
    ∧ (1 ≤ diskNSD (R := ℚ) ⟨fun _ => 0, fun _ => 1, id, id, id⟩ 1 2 (fun _ => 0)
        (centered 1 1 0) (centered 1 1 0) (0 * (M_PI / 180)) 1 1 0 0)
    ∧ (1 ≤ parabola4NSD (R := ℚ) ⟨fun _ => 0, fun _ => 1, id, id, id⟩ 1 2 (fun _ => 0)
        (centered 1 1 0) (centered 1 1 0) (0 * (M_PI / 180))
        (1 * (1 - Zdel2 1 (-1) (4 * (1 / (1 * 1))) 0) ^ 2)
        (1 * (1 - Zdel2 1 (-1) (4 * (1 / (1 * 1))) 0) ^ 2) 0 0)
    ∧ ((buildSino3D_core_single (R := ℚ) ⟨fun _ => 0, fun _ => 1, id, id, id⟩ (fun _ => 0)
          1 2 (fun _ => 0) 1 1 2 1 0 0 (-1) 1 1 1 0 0 0 0 0).1 (0 * 2 * 1 + 0 * 2 + 0)
        = (fun _ => (0 : ℚ)) (0 * 2 * 1 + 0 * 2 + 0)
      ∧ (buildSino3D_core_single (R := ℚ) ⟨fun _ => 0, fun _ => 1, id, id, id⟩ (fun _ => 0)
          1 2 (fun _ => 0) 1 1 3 1 0 0 (-1) 1 1 1 0 0 0 0 0).1 (0 * 2 * 1 + 0 * 2 + 0)
        = (fun _ => (0 : ℚ)) (0 * 2 * 1 + 0 * 2 + 0)
      ∧ (buildSino3D_core_single (R := ℚ) ⟨fun _ => 0, fun _ => 1, id, id, id⟩ (fun _ => 0)
          1 2 (fun _ => 0) 1 1 4 1 0 0 (-1) 1 1 1 0 0 0 0 0).1 (0 * 2 * 1 + 0 * 2 + 0)
        = (fun _ => (0 : ℚ)) (0 * 2 * 1 + 0 * 2 + 0)) := by
  have h2 : 1 ≤ parabola2NSD (R := ℚ) ⟨fun _ => 0, fun _ => 1, id, id, id⟩ 1 2 (fun _ => 0)
      (centered 1 1 0) (centered 1 1 0) (0 * (M_PI / 180))
      (1 * (1 - Zdel2 1 (-1) (1 / (1 * 1)) 0) ^ 2)
      (1 * (1 - Zdel2 1 (-1) (1 / (1 * 1)) 0) ^ 2) 0 0 := by
    norm_num [parabola2NSD, AnglesRad, centered, H_x, Tomorange_Xmax, Tomorange_Xmin,
      Zdel2, Zdel, Tomorange_X_Ar, Sinorange_P_Ar, Sinorange_Pmax, Sinorange_Pmin, H_p]
  have h3 : 1 ≤ diskNSD (R := ℚ) ⟨fun _ => 0, fun _ => 1, id, id, id⟩ 1 2 (fun _ => 0)
      (centered 1 1 0) (centered 1 1 0) (0 * (M_PI / 180)) 1 1 0 0 := by
    norm_num [diskNSD, AnglesRad, centered, H_x, Tomorange_Xmax, Tomorange_Xmin,
      Sinorange_P_Ar, Sinorange_Pmax, Sinorange_Pmin, H_p]
  have h4 : 1 ≤ parabola4NSD (R := ℚ) ⟨fun _ => 0, fun _ => 1, id, id, id⟩ 1 2 (fun _ => 0)
      (centered 1 1 0) (centered 1 1 0) (0 * (M_PI / 180))
      (1 * (1 - Zdel2 1 (-1) (4 * (1 / (1 * 1))) 0) ^ 2)
      (1 * (1 - Zdel2 1 (-1) (4 * (1 / (1 * 1))) 0) ^ 2) 0 0 := by
    norm_num [parabola4NSD, AnglesRad, centered, H_x, Tomorange_Xmax, Tomorange_Xmin,
      Zdel2, Zdel, Tomorange_X_Ar, Sinorange_P_Ar, Sinorange_Pmax, Sinorange_Pmin, H_p]
  obtain ⟨c2, c3, c4⟩ := claim_C3 (R := ℚ) (k := 0) (i := 0) (j := 0)
    ⟨fun _ => 0, fun _ => 1, id, id, id⟩ (fun _ => 0)
    1 2 (fun _ => 0) 1 1 1 0 0 (-1) 1 1 1 0 0 0 0 0
    (by decide) (by decide) (by decide)
  exact ⟨⟨by decide, by decide, by decide⟩, h2, h3, h4, c2 h2, c3 h3, c4 h4⟩

theorem one_sub_Zdel2_sq_eq_shrink (N : ℕ) (z0 c : R) (k : ℕ) (hc : c ≠ 0) :
    (1 - Zdel2 N z0 (1 / (c * c)) k) ^ 2 = shrink (Zdel N z0 k) c := by
  unfold Zdel2 shrink
  rw [div_pow]
  field_simp
  ring

theorem one_sub_Zdel2_sq_eq_shrink_half (N : ℕ) (z0 c : R) (k : ℕ) (hc : c ≠ 0) :
    (1 - Zdel2 N z0 (4 * (1 / (c * c))) k) ^ 2 = shrink (Zdel N z0 k) (c / 2) := by
  unfold Zdel2 shrink
  rw [div_pow, div_pow]
  field_simp
  ring

/-- Claim C4 (counterexample): for the elliptical disk the source does not
rescale the semi-axes or the intensity by the slice shrink factor (the
rescaling block at lines 153-158 is commented out), so on a slice strictly
inside the extent the actual cell value differs from the value the claim
prescribes. -/
theorem claim_C4_counterexample :
    (buildSino3D_core_single (R := ℝ) ⟨Real.sin, Real.cos, Real.exp, Real.log, Real.sqrt⟩
        (fun _ => 0) 2 2 (fun _ => 0) 1 1 3 1 (-(1/2)) 0 0 1 1 2 0 0 0 0 0).1
        (0 * 2 * 1 + 0 * 2 + 0)
      ≠ (fun _ => (0 : ℝ)) (0 * 2 * 1 + 0 * 2 + 0)
        + diskBodyRescaledClaim ⟨Real.sin, Real.cos, Real.exp, Real.log, Real.sqrt⟩ 2 2
            (fun _ => 0) (centered 1 2 (-(1/2))) (centered 1 2 0) (0 * (M_PI / 180)) 1 1 1
            (Zdel 2 0 0) 2 0 0 := by
  rw [buildSino3D_core_single_apply ⟨Real.sin, Real.cos, Real.exp, Real.log, Real.sqrt⟩
    (fun _ => 0) 2 2 (fun _ => 0) 1 1 3 1 (-(1/2)) 0 0 1 1 2 0 0 0 0 0
    (by norm_num) (by norm_num) (by norm_num)]
  have hz : Zdel2 (R := ℝ) 2 0 (1 / 4) 0 ≤ 1 := by
    norm_num [Zdel2, Zdel, Tomorange_X_Ar, Tomorange_Xmin, H_x, Tomorange_Xmax]
  have hactual : singleContrib (R := ℝ) ⟨Real.sin, Real.cos, Real.exp, Real.log, Real.sqrt⟩
      2 2 (fun _ => 0) 1 1 3 1 (-(1/2)) 0 0 1 1 2 0 0 0 0 0 0
      = 2 * Real.sqrt (1 - 4/9) := by
    unfold singleContrib
    norm_num [diskBody, AnglesRad, Real.sin_zero, Real.cos_zero, Real.sqrt_one,
      Sinorange_P_Ar, Sinorange_Pmax, Sinorange_Pmin, H_p, centered, H_x,
      Tomorange_Xmax, Tomorange_Xmin, hz]
  have hclaim : diskBodyRescaledClaim (R := ℝ)
      ⟨Real.sin, Real.cos, Real.exp, Real.log, Real.sqrt⟩ 2 2
      (fun _ => 0) (centered 1 2 (-(1/2))) (centered 1 2 0) (0 * (M_PI / 180)) 1 1 1
      (Zdel 2 0 0) 2 0 0 = 0 := by
    unfold diskBodyRescaledClaim
    norm_num [diskBody, AnglesRad, Real.sin_zero, Real.cos_zero,
      Sinorange_P_Ar, Sinorange_Pmax, Sinorange_Pmin, H_p, centered, H_x,
      Tomorange_Xmax, Tomorange_Xmin, shrink, Zdel, Tomorange_X_Ar]
  rw [hactual, hclaim]
  have hpos : (0 : ℝ) < Real.sqrt (1 - 4/9) := Real.sqrt_pos.mpr (by norm_num)
  norm_num

/-- Claim C4 (amended): for the parabola, sharp parabola and cone, a slice
within the third-axis support contributes through the 2D body evaluated at
semi-axes and intensity rescaled by the shrink factor, whose extent is `c`
for the parabola and cone and `c/2` for the sharp parabola (whose `c2` is
quadrupled); slices outside the support contribute nothing for all four
bounded shapes; the elliptical disk only skips out-of-support slices and
feeds the unrescaled `a`, `b`, `C0` to its 2D body. -/
theorem claim_C4_amended (o : Ops R) (A : Buf R) (N P : ℕ) (Th : ℕ → R) (AngTot : ℕ)
    (CenTypeIn : ℤ) (C0 x0 y0 z0 a b c psi1 psi2 psi3 u v : R) (hc : c ≠ 0)
    {k i j : ℕ} (hk : k < N) (hi : i < AngTot) (hj : j < P) :
    (¬(Zdel2 N z0 (1 / (c * c)) k ≤ 1) →
      (buildSino3D_core_single o A N P Th AngTot CenTypeIn 2 C0 x0 y0 z0 a b c
          psi1 psi2 psi3 u v).1 (k * P * AngTot + i * P + j)
        = A (k * P * AngTot + i * P + j))
    ∧ (¬(Zdel2 N z0 (1 / (c * c)) k ≤ 1) →
      (buildSino3D_core_single o A N P Th AngTot CenTypeIn 3 C0 x0 y0 z0 a b c
          psi1 psi2 psi3 u v).1 (k * P * AngTot + i * P + j)
        = A (k * P * AngTot + i * P + j))
    ∧ (¬(Zdel2 N z0 (4 * (1 / (c * c))) k ≤ 1) →
      (buildSino3D_core_single o A N P Th AngTot CenTypeIn 4 C0 x0 y0 z0 a b c
          psi1 psi2 psi3 u v).1 (k * P * AngTot + i * P + j)
        = A (k * P * AngTot + i * P + j))
    ∧ (¬(Zdel2 N z0 (1 / (c * c)) k ≤ 1) →
      (buildSino3D_core_single o A N P Th AngTot CenTypeIn 5 C0 x0 y0 z0 a b c
          psi1 psi2 psi3 u v).1 (k * P * AngTot + i * P + j)
        = A (k * P * AngTot + i * P + j))
    ∧ ((buildSino3D_core_single o A N P Th AngTot CenTypeIn 2 C0 x0 y0 z0 a b c
          psi1 psi2 psi3 u v).1 (k * P * AngTot + i * P + j)
        = A (k * P * AngTot + i * P + j)
          + (if Zdel2 N z0 (1 / (c * c)) k ≤ 1 then
              parabola2Body o N P Th (centered CenTypeIn N x0) (centered CenTypeIn N y0)
                (psi1 * (M_PI / 180)) (a * shrink (Zdel N z0 k) c) (b * shrink (Zdel N z0 k) c)
                (C0 * shrink (Zdel N z0 k) c) i j
            else 0))
    ∧ ((buildSino3D_core_single o A N P Th AngTot CenTypeIn 4 C0 x0 y0 z0 a b c
          psi1 psi2 psi3 u v).1 (k * P * AngTot + i * P + j)
        = A (k * P * AngTot + i * P + j)
          + (if Zdel2 N z0 (4 * (1 / (c * c))) k ≤ 1 then
              parabola4Body o N P Th (centered CenTypeIn N x0) (centered CenTypeIn N y0)
                (psi1 * (M_PI / 180)) (a * shrink (Zdel N z0 k) (c / 2))
                (b * shrink (Zdel N z0 k) (c / 2)) (C0 * shrink (Zdel N z0 k) (c / 2)) i j
            else 0))
    ∧ ((buildSino3D_core_single o A N P Th AngTot CenTypeIn 5 C0 x0 y0 z0 a b c
          psi1 psi2 psi3 u v).1 (k * P * AngTot + i * P + j)
        = A (k * P * AngTot + i * P + j)
          + (if Zdel2 N z0 (1 / (c * c)) k ≤ 1 then
              coneBody o N P Th (centered CenTypeIn N x0) (centered CenTypeIn N y0)
                (psi1 * (M_PI / 180)) (a * shrink (Zdel N z0 k) c) (b * shrink (Zdel N z0 k) c)
                (C0 * shrink (Zdel N z0 k) c) i j
            else 0))
    ∧ ((buildSino3D_core_single o A N P Th AngTot CenTypeIn 3 C0 x0 y0 z0 a b c
          psi1 psi2 psi3 u v).1 (k * P * AngTot + i * P + j)
        = A (k * P * AngTot + i * P + j)
          + (if Zdel2 N z0 (1 / (c * c)) k ≤ 1 then
              diskBody o N P Th (centered CenTypeIn N x0) (centered CenTypeIn N y0)
                (psi1 * (M_PI / 180)) C0 a b i j
            else 0)) := by
  have hsh := one_sub_Zdel2_sq_eq_shrink N z0 c k hc
  have hsh2 := one_sub_Zdel2_sq_eq_shrink_half N z0 c k hc
  refine ⟨?_, ?_, ?_, ?_, ?_, ?_, ?_, ?_⟩
  · intro h
    rw [buildSino3D_core_single_apply o A N P Th AngTot CenTypeIn 2 C0 x0 y0 z0 a b c
      psi1 psi2 psi3 u v hk hi hj]
    unfold singleContrib
    rw [if_neg (by decide : ¬((2 : ℤ) = 1)), if_pos rfl, if_neg h, add_zero]
  · intro h
    rw [buildSino3D_core_single_apply o A N P Th AngTot CenTypeIn 3 C0 x0 y0 z0 a b c
      psi1 psi2 psi3 u v hk hi hj]
    unfold singleContrib
    rw [if_neg (by decide : ¬((3 : ℤ) = 1)), if_neg (by decide : ¬((3 : ℤ) = 2)), if_pos rfl,
      if_neg h, add_zero]
  · intro h
    rw [buildSino3D_core_single_apply o A N P Th AngTot CenTypeIn 4 C0 x0 y0 z0 a b c
      psi1 psi2 psi3 u v hk hi hj]
    unfold singleContrib
    rw [if_neg (by decide : ¬((4 : ℤ) = 1)), if_neg (by decide : ¬((4 : ℤ) = 2)),
      if_neg (by decide : ¬((4 : ℤ) = 3)), if_pos rfl, if_neg h, add_zero]
  · intro h
    rw [buildSino3D_core_single_apply o A N P Th AngTot CenTypeIn 5 C0 x0 y0 z0 a b c
      psi1 psi2 psi3 u v hk hi hj]
    unfold singleContrib
    rw [if_neg (by decide : ¬((5 : ℤ) = 1)), if_neg (by decide : ¬((5 : ℤ) = 2)),
      if_neg (by decide : ¬((5 : ℤ) = 3)), if_neg (by decide : ¬((5 : ℤ) = 4)), if_pos rfl,
      if_neg h, add_zero]
  · rw [buildSino3D_core_single_apply o A N P Th AngTot CenTypeIn 2 C0 x0 y0 z0 a b c
      psi1 psi2 psi3 u v hk hi hj]
    unfold singleContrib
    rw [if_neg (by decide : ¬((2 : ℤ) = 1)), if_pos rfl, hsh]
  · rw [buildSino3D_core_single_apply o A N P Th AngTot CenTypeIn 4 C0 x0 y0 z0 a b c
      psi1 psi2 psi3 u v hk hi hj]
    unfold singleContrib
    rw [if_neg (by decide : ¬((4 : ℤ) = 1)), if_neg (by decide : ¬((4 : ℤ) = 2)),
      if_neg (by decide : ¬((4 : ℤ) = 3)), if_pos rfl, hsh2]
  · rw [buildSino3D_core_single_apply o A N P Th AngTot CenTypeIn 5 C0 x0 y0 z0 a b c
      psi1 psi2 psi3 u v hk hi hj]
    unfold singleContrib
    rw [if_neg (by decide : ¬((5 : ℤ) = 1)), if_neg (by decide : ¬((5 : ℤ) = 2)),
      if_neg (by decide : ¬((5 : ℤ) = 3)), if_neg (by decide : ¬((5 : ℤ) = 4)), if_pos rfl, hsh]
  · rw [buildSino3D_core_single_apply o A N P Th AngTot CenTypeIn 3 C0 x0 y0 z0 a b c
      psi1 psi2 psi3 u v hk hi hj]
    unfold singleContrib
    rw [if_neg (by decide : ¬((3 : ℤ) = 1)), if_neg (by decide : ¬((3 : ℤ) = 2)), if_pos rfl]

/-- Witness for the amended claim C4 at concrete unit parameters. -/
theorem claim_C4_amended_witness :
    ((1 : ℚ) ≠ 0 ∧ (0 : ℕ) < 1 ∧ (0 : ℕ) < 1 ∧ (0 : ℕ) < 1)
    ∧ ((¬(Zdel2 (R := ℚ) 1 0 (1 / (1 * 1)) 0 ≤ 1) →
        (buildSino3D_core_single (R := ℚ) ⟨id, id, id, id, id⟩ (fun _ => 0) 1 1 (fun _ => 0)
            1 1 2 1 0 0 0 1 1 1 0 0 0 0 0).1 (0 * 1 * 1 + 0 * 1 + 0)
          = (fun _ => (0 : ℚ)) (0 * 1 * 1 + 0 * 1 + 0))
      ∧ (¬(Zdel2 (R := ℚ) 1 0 (1 / (1 * 1)) 0 ≤ 1) →
        (buildSino3D_core_single (R := ℚ) ⟨id, id, id, id, id⟩ (fun _ => 0) 1 1 (fun _ => 0)
            1 1 3 1 0 0 0 1 1 1 0 0 0 0 0).1 (0 * 1 * 1 + 0 * 1 + 0)
          = (fun _ => (0 : ℚ)) (0 * 1 * 1 + 0 * 1 + 0))
      ∧ (¬(Zdel2 (R := ℚ) 1 0 (4 * (1 / (1 * 1))) 0 ≤ 1) →
        (buildSino3D_core_single (R := ℚ) ⟨id, id, id, id, id⟩ (fun _ => 0) 1 1 (fun _ => 0)
            1 1 4 1 0 0 0 1 1 1 0 0 0 0 0).1 (0 * 1 * 1 + 0 * 1 + 0)
          = (fun _ => (0 : ℚ)) (0 * 1 * 1 + 0 * 1 + 0))
      ∧ (¬(Zdel2 (R := ℚ) 1 0 (1 / (1 * 1)) 0 ≤ 1) →
        (buildSino3D_core_single (R := ℚ) ⟨id, id, id, id, id⟩ (fun _ => 0) 1 1 (fun _ => 0)
            1 1 5 1 0 0 0 1 1 1 0 0 0 0 0).1 (0 * 1 * 1 + 0 * 1 + 0)
          = (fun _ => (0 : ℚ)) (0 * 1 * 1 + 0 * 1 + 0))
      ∧ ((buildSino3D_core_single (R := ℚ) ⟨id, id, id, id, id⟩ (fun _ => 0) 1 1 (fun _ => 0)
            1 1 2 1 0 0 0 1 1 1 0 0 0 0 0).1 (0 * 1 * 1 + 0 * 1 + 0)
          = (fun _ => (0 : ℚ)) (0 * 1 * 1 + 0 * 1 + 0)
            + (if Zdel2 (R := ℚ) 1 0 (1 / (1 * 1)) 0 ≤ 1 then
                parabola2Body ⟨id, id, id, id, id⟩ 1 1 (fun _ => 0) (centered 1 1 0)
                  (centered 1 1 0) (0 * (M_PI / 180)) (1 * shrink (Zdel 1 0 0) 1)
                  (1 * shrink (Zdel 1 0 0) 1) (1 * shrink (Zdel 1 0 0) 1) 0 0
              else 0))
      ∧ ((buildSino3D_core_single (R := ℚ) ⟨id, id, id, id, id⟩ (fun _ => 0) 1 1 (fun _ => 0)
            1 1 4 1 0 0 0 1 1 1 0 0 0 0 0).1 (0 * 1 * 1 + 0 * 1 + 0)
          = (fun _ => (0 : ℚ)) (0 * 1 * 1 + 0 * 1 + 0)
            + (if Zdel2 (R := ℚ) 1 0 (4 * (1 / (1 * 1))) 0 ≤ 1 then
                parabola4Body ⟨id, id, id, id, id⟩ 1 1 (fun _ => 0) (centered 1 1 0)
                  (centered 1 1 0) (0 * (M_PI / 180)) (1 * shrink (Zdel 1 0 0) (1 / 2))
                  (1 * shrink (Zdel 1 0 0) (1 / 2)) (1 * shrink (Zdel 1 0 0) (1 / 2)) 0 0
              else 0))
      ∧ ((buildSino3D_core_single (R := ℚ) ⟨id, id, id, id, id⟩ (fun _ => 0) 1 1 (fun _ => 0)
            1 1 5 1 0 0 0 1 1 1 0 0 0 0 0).1 (0 * 1 * 1 + 0 * 1 + 0)
          = (fun _ => (0 : ℚ)) (0 * 1 * 1 + 0 * 1 + 0)
            + (if Zdel2 (R := ℚ) 1 0 (1 / (1 * 1)) 0 ≤ 1 then
                coneBody ⟨id, id, id, id, id⟩ 1 1 (fun _ => 0) (centered 1 1 0)
                  (centered 1 1 0) (0 * (M_PI / 180)) (1 * shrink (Zdel 1 0 0) 1)
                  (1 * shrink (Zdel 1 0 0) 1) (1 * shrink (Zdel 1 0 0) 1) 0 0
              else 0))
      ∧ ((buildSino3D_core_single (R := ℚ) ⟨id, id, id, id, id⟩ (fun _ => 0) 1 1 (fun _ => 0)
            1 1 3 1 0 0 0 1 1 1 0 0 0 0 0).1 (0 * 1 * 1 + 0 * 1 + 0)
          = (fun _ => (0 : ℚ)) (0 * 1 * 1 + 0 * 1 + 0)
            + (if Zdel2 (R := ℚ) 1 0 (1 / (1 * 1)) 0 ≤ 1 then
                diskBody ⟨id, id, id, id, id⟩ 1 1 (fun _ => 0) (centered 1 1 0)
                  (centered 1 1 0) (0 * (M_PI / 180)) 1 1 1 0 0
              else 0))) :=
  ⟨⟨by decide, by decide, by decide, by decide⟩,
    claim_C4_amended (R := ℚ) (k := 0) (i := 0) (j := 0) ⟨id, id, id, id, id⟩ (fun _ => 0)
      1 1 (fun _ => 0) 1 1 1 0 0 0 1 1 1 0 0 0 0 0 (by decide)
      (by decide) (by decide) (by decide)⟩

/-- The rectangle body at relative angle 0 (input angle 0, rotation 0) is an
exact flat top: `(N/2)*xwid*C0` strictly inside half the `ywid` extent around
the projected centre `y11`, and zero at or beyond it. -/
theorem rectBody_flat (N P AngTot : ℕ) (Th : ℕ → ℝ) (x11 y11 C0 a b : ℝ) (ha : 0 < a)
    (i j : ℕ) (hth : Th ((AngTot - 1) - i) = 0) :
    rectBody ⟨Real.sin, Real.cos, Real.exp, Real.log, Real.sqrt⟩ N P AngTot Th x11 y11 0
        b a C0 i j
      = if |Sinorange_P_Ar N P j - y11| < a / 2 then ((N : ℝ) / 2) * (b * C0) else 0 := by
  have habs : (0 : ℝ) ≤ |Sinorange_P_Ar N P j - y11| := abs_nonneg _
  simp only [rectBody, AnglesRad, hth, zero_mul]
  norm_num [M_PI, EPS, Real.cos_zero, Real.sin_zero]
  split_ifs with h1 h2 h3 h4
  all_goals try rfl
  all_goals (exfalso; linarith)

/-- Claim C5 (counterexample): for a unit square at rotation 0, angle 0, on a
grid with `N = 4`, a detector cell strictly within half the width of the
projected centre receives `(N/2)*width*intensity = 2`, not
`width*intensity = 1` as the claim states. -/
theorem claim_C5_counterexample :
    (buildSino3D_core_single ⟨Real.sin, Real.cos, Real.exp, Real.log, Real.sqrt⟩
        (fun _ => 0) 4 2 (fun _ => 0) 1 1 6 1 0 0 0 1 1 10 0 0 0 0 0).1
        (2 * 2 * 1 + 0 * 2 + 0) = 2
    ∧ |Sinorange_P_Ar (R := ℝ) 4 2 0 - rectY11 1 4 0| < 1 / 2
    ∧ (2 : ℝ) ≠ 1 * 1 := by
  have hP0 : |Sinorange_P_Ar (R := ℝ) 4 2 0 - rectY11 1 4 0| < 1 / 2 := by
    norm_num [Sinorange_P_Ar, Sinorange_Pmax, Sinorange_Pmin, H_p, rectY11, H_x,
      Tomorange_Xmax, Tomorange_Xmin, abs]
  refine ⟨?_, hP0, by norm_num⟩
  rw [buildSino3D_core_single_apply ⟨Real.sin, Real.cos, Real.exp, Real.log, Real.sqrt⟩
    (fun _ => 0) 4 2 (fun _ => 0) 1 1 6 1 0 0 0 1 1 10 0 0 0 0 0
    (by norm_num) (by norm_num) (by norm_num)]
  unfold singleContrib
  rw [if_neg (by decide : ¬((6 : ℤ) = 1)), if_neg (by decide : ¬((6 : ℤ) = 2)),
    if_neg (by decide : ¬((6 : ℤ) = 3)), if_neg (by decide : ¬((6 : ℤ) = 4)),
    if_neg (by decide : ¬((6 : ℤ) = 5)), if_pos rfl]
  rw [if_pos (by
    norm_num [Zdel, Tomorange_X_Ar, Tomorange_Xmin, H_x, Tomorange_Xmax]
    : |Zdel (R := ℝ) 4 0 2| < 0.5 * 10)]
  rw [show (if (0 : ℝ) * (M_PI / 180) < 0 then M_PI + 0 * (M_PI / 180)
      else 0 * (M_PI / 180)) = (0 : ℝ) by norm_num]
  rw [rectBody_flat 4 2 1 (fun _ => 0) (rectX11 1 4 0) (rectY11 1 4 0) 1 1 1
    (by norm_num) 0 0 rfl]
  rw [if_pos (by norm_num at hP0 ⊢; linarith [hP0] : |Sinorange_P_Ar (R := ℝ) 4 2 0 -
    rectY11 1 4 0| < 1 / 2)]
  norm_num

/-- Claim C5 (amended): at rotation 0, for an output angle whose input angle
is 0, each in-support slice adds the exact flat top: `(N/2)*b*C0` (the `b`
extent is the chord width `xwid`) at every detector cell strictly within
half the `a` extent (`ywid`) of the projected centre `y11`, and exactly zero
at or beyond that distance, the zeroing implemented by the chord-entry
override `PC >= QP`. -/
theorem claim_C5_amended (A : Buf ℝ) (N P : ℕ) (Th : ℕ → ℝ) (AngTot : ℕ) (CenTypeIn : ℤ)
    (C0 x0 y0 z0 a b c psi2 psi3 u v : ℝ) (ha : 0 < a)
    {k i j : ℕ} (hk : k < N) (hi : i < AngTot) (hj : j < P)
    (hth : Th ((AngTot - 1) - i) = 0) (hslab : |Zdel N z0 k| < 0.5 * c) :
    (buildSino3D_core_single ⟨Real.sin, Real.cos, Real.exp, Real.log, Real.sqrt⟩ A N P Th
        AngTot CenTypeIn 6 C0 x0 y0 z0 a b c 0 psi2 psi3 u v).1 (k * P * AngTot + i * P + j)
      = A (k * P * AngTot + i * P + j)
        + (if |Sinorange_P_Ar N P j - rectY11 CenTypeIn N x0| < a / 2
            then ((N : ℝ) / 2) * (b * C0) else 0) := by
  rw [buildSino3D_core_single_apply ⟨Real.sin, Real.cos, Real.exp, Real.log, Real.sqrt⟩
    A N P Th AngTot CenTypeIn 6 C0 x0 y0 z0 a b c 0 psi2 psi3 u v hk hi hj]
  unfold singleContrib
  rw [if_neg (by decide : ¬((6 : ℤ) = 1)), if_neg (by decide : ¬((6 : ℤ) = 2)),
    if_neg (by decide : ¬((6 : ℤ) = 3)), if_neg (by decide : ¬((6 : ℤ) = 4)),
    if_neg (by decide : ¬((6 : ℤ) = 5)), if_pos rfl, if_pos hslab]
  rw [show (if (0 : ℝ) * (M_PI / 180) < 0 then M_PI + 0 * (M_PI / 180)
      else 0 * (M_PI / 180)) = (0 : ℝ) by norm_num]
  rw [rectBody_flat N P AngTot Th (rectX11 CenTypeIn N y0) (rectY11 CenTypeIn N x0) C0 a b
    ha i j hth]

/-- Witness for the amended claim C5 at the concrete unit square. -/
theorem claim_C5_amended_witness :
    ((0 : ℝ) < 1 ∧ (2 : ℕ) < 4 ∧ (0 : ℕ) < 1 ∧ (0 : ℕ) < 2
      ∧ (fun _ => (0 : ℝ)) ((1 - 1) - 0) = 0 ∧ |Zdel (R := ℝ) 4 0 2| < 0.5 * 10)
    ∧ (buildSino3D_core_single ⟨Real.sin, Real.cos, Real.exp, Real.log, Real.sqrt⟩
        (fun _ => 0) 4 2 (fun _ => 0) 1 1 6 1 0 0 0 1 1 10 0 0 0 0 0).1
        (2 * 2 * 1 + 0 * 2 + 0)
      = (fun _ => (0 : ℝ)) (2 * 2 * 1 + 0 * 2 + 0)
        + (if |Sinorange_P_Ar (R := ℝ) 4 2 0 - rectY11 1 4 0| < 1 / 2
            then ((4 : ℕ) : ℝ) / 2 * (1 * 1) else 0) :=
  ⟨⟨by norm_num, by norm_num, by norm_num, by norm_num, rfl,
      by norm_num [Zdel, Tomorange_X_Ar, Tomorange_Xmin, H_x, Tomorange_Xmax]⟩,
    claim_C5_amended (k := 2) (i := 0) (j := 0) (fun _ => 0) 4 2 (fun _ => 0) 1 1
      1 0 0 0 1 1 10 0 0 0 0 (by norm_num) (by norm_num) (by norm_num) (by norm_num)
      rfl (by norm_num [Zdel, Tomorange_X_Ar, Tomorange_Xmin, H_x, Tomorange_Xmax])⟩

/-- The elementary logarithm bound used for the cone kernel's edge values:
for `0 < p < 1`, `log ((1+p)/(1-p)) ≤ 2p/(1-p^2)`. -/
theorem log_ratio_le {p : ℝ} (hp0 : 0 < p) (hp1 : p < 1) :
    Real.log ((1 + p) / (1 - p)) ≤ 2 * p / (1 - p ^ 2) := by
  have h1p : (0 : ℝ) < 1 - p := by linarith
  have h1p2 : (0 : ℝ) < 1 - p ^ 2 := by nlinarith
  have hy : (0 : ℝ) ≤ 2 * p / (1 - p ^ 2) := by positivity
  rw [Real.log_le_iff_le_exp (by positivity)]
  refine le_trans ?_ (Real.quadratic_le_exp_of_nonneg hy)
  rw [div_le_iff₀ h1p]
  have hid : (1 + 2 * p / (1 - p ^ 2) + (2 * p / (1 - p ^ 2)) ^ 2 / 2) * (1 - p) - (1 + p)
      = 2 * p ^ 4 * (1 - p) / (1 - p ^ 2) ^ 2 := by
    field_simp
    ring
  have hge : (0 : ℝ) ≤ 2 * p ^ 4 * (1 - p) / (1 - p ^ 2) ^ 2 := by positivity
  linarith [hid, hge]

/-- Claim C6: the cone radial profile evaluated at normalized squared
distances 0, `1 - 1e-7` and `1 - 1e-12` takes the well-defined finite values
1, a value between 0 and 1, and 0 respectively — monotonically non-increasing
across the three points — and scaling by any nonnegative `first_dr` preserves
the ordering; the logarithmic term is suppressed by the `EPS = 1e-9` guards
at the first point (distance negligibly small) and evaluates to `log 1 = 0`
at the third (distance from 1 negligibly small, square-root term skipped). -/
theorem claim_C6 :
    coneProfile ⟨Real.sin, Real.cos, Real.exp, Real.log, Real.sqrt⟩ (0 : ℝ) = 1
    ∧ coneProfile ⟨Real.sin, Real.cos, Real.exp, Real.log, Real.sqrt⟩ (1 - 1e-12 : ℝ) = 0
    ∧ (0 : ℝ) ≤ coneProfile ⟨Real.sin, Real.cos, Real.exp, Real.log, Real.sqrt⟩ (1 - 1e-7 : ℝ)
    ∧ coneProfile ⟨Real.sin, Real.cos, Real.exp, Real.log, Real.sqrt⟩ (1 - 1e-7 : ℝ)
        ≤ coneProfile ⟨Real.sin, Real.cos, Real.exp, Real.log, Real.sqrt⟩ (0 : ℝ)
    ∧ ∀ first_dr : ℝ, 0 ≤ first_dr →
        first_dr * coneProfile ⟨Real.sin, Real.cos, Real.exp, Real.log, Real.sqrt⟩
            (1 - 1e-12 : ℝ)
          ≤ first_dr * coneProfile ⟨Real.sin, Real.cos, Real.exp, Real.log, Real.sqrt⟩
            (1 - 1e-7 : ℝ)
        ∧ first_dr * coneProfile ⟨Real.sin, Real.cos, Real.exp, Real.log, Real.sqrt⟩
            (1 - 1e-7 : ℝ)
          ≤ first_dr * coneProfile ⟨Real.sin, Real.cos, Real.exp, Real.log, Real.sqrt⟩
            (0 : ℝ) := by
  have hp0 : (0 : ℝ) < Real.sqrt 1e-7 := Real.sqrt_pos.mpr (by norm_num)
  have hp1 : Real.sqrt 1e-7 < 1 := by
    have h := Real.sqrt_lt_sqrt (by norm_num : (0 : ℝ) ≤ 1e-7) (by norm_num : (1e-7 : ℝ) < 1)
    simpa [Real.sqrt_one] using h
  have hq : Real.sqrt 1e-7 ^ 2 = 1e-7 := Real.sq_sqrt (by norm_num)
  have hne : Real.sqrt 1e-7 ≠ 1 := by
    intro h
    rw [h] at hq
    norm_num at hq
  have hv0 : coneProfile ⟨Real.sin, Real.cos, Real.exp, Real.log, Real.sqrt⟩ (0 : ℝ) = 1 := by
    norm_num [coneProfile, EPS, Real.sqrt_one]
  have hv2 : coneProfile ⟨Real.sin, Real.cos, Real.exp, Real.log, Real.sqrt⟩
      (1 - 1e-12 : ℝ) = 0 := by
    norm_num [coneProfile, EPS, Real.log_one]
  have hty : (0 : ℝ) < (1 + Real.sqrt 1e-7) / (1 - Real.sqrt 1e-7) :=
    div_pos (by linarith) (by linarith)
  have hv1 : coneProfile ⟨Real.sin, Real.cos, Real.exp, Real.log, Real.sqrt⟩
      (1 - 1e-7 : ℝ)
      = Real.sqrt 1e-7
        - 0.5 * (1 - 1e-7)
          * Real.log ((1 + Real.sqrt 1e-7) / (1 - Real.sqrt 1e-7)) := by
    have habs : |1 - (1 - 1e-7 : ℝ)| = 1e-7 := by norm_num
    simp only [coneProfile, EPS]
    rw [if_pos (by norm_num : (1 - 1e-7 : ℝ) < 1),
      if_pos (by norm_num : (1 - 1e-7 : ℝ) < 1 - 1e-9), habs,
      if_pos ⟨by norm_num, hne⟩, if_pos hty]
  have hL0 : (0 : ℝ) ≤ Real.log ((1 + Real.sqrt 1e-7) / (1 - Real.sqrt 1e-7)) :=
    Real.log_nonneg ((one_le_div (by linarith)).mpr (by linarith))
  have hLle : Real.log ((1 + Real.sqrt 1e-7) / (1 - Real.sqrt 1e-7))
      ≤ 2 * Real.sqrt 1e-7 / (1 - 1e-7) := by
    have h := log_ratio_le hp0 hp1
    rw [hq] at h
    exact h
  have hv1lo : (0 : ℝ) ≤ coneProfile ⟨Real.sin, Real.cos, Real.exp, Real.log, Real.sqrt⟩
      (1 - 1e-7 : ℝ) := by
    rw [hv1]
    have hkey : 0.5 * (1 - 1e-7 : ℝ)
        * Real.log ((1 + Real.sqrt 1e-7) / (1 - Real.sqrt 1e-7))
        ≤ 0.5 * (1 - 1e-7) * (2 * Real.sqrt 1e-7 / (1 - 1e-7)) :=
      mul_le_mul_of_nonneg_left hLle (by norm_num)
    have hcancel : 0.5 * (1 - 1e-7 : ℝ) * (2 * Real.sqrt 1e-7 / (1 - 1e-7))
        = Real.sqrt 1e-7 := by
      field_simp
      ring
    linarith [hkey, hcancel.le, hcancel.ge]
  have hv1hi : coneProfile ⟨Real.sin, Real.cos, Real.exp, Real.log, Real.sqrt⟩
      (1 - 1e-7 : ℝ) ≤ 1 := by
    rw [hv1]
    have : (0 : ℝ) ≤ 0.5 * (1 - 1e-7)
        * Real.log ((1 + Real.sqrt 1e-7) / (1 - Real.sqrt 1e-7)) := by
      have : (0 : ℝ) ≤ 0.5 * (1 - 1e-7 : ℝ) := by norm_num
      positivity
    linarith
  refine ⟨hv0, hv2, hv1lo, by rw [hv0]; exact hv1hi, ?_⟩
  intro fd hfd
  constructor
  · rw [hv2]
    exact mul_le_mul_of_nonneg_left (by linarith [hv1lo]) hfd
  · rw [hv0]
    exact mul_le_mul_of_nonneg_left hv1hi hfd

/-- Witness for claim C6 instantiating the scale factor. -/
theorem claim_C6_witness :
    (0 : ℝ) ≤ 1
    ∧ ((1 : ℝ) * coneProfile ⟨Real.sin, Real.cos, Real.exp, Real.log, Real.sqrt⟩
          (1 - 1e-12 : ℝ)
        ≤ 1 * coneProfile ⟨Real.sin, Real.cos, Real.exp, Real.log, Real.sqrt⟩
          (1 - 1e-7 : ℝ)
      ∧ (1 : ℝ) * coneProfile ⟨Real.sin, Real.cos, Real.exp, Real.log, Real.sqrt⟩
          (1 - 1e-7 : ℝ)
        ≤ 1 * coneProfile ⟨Real.sin, Real.cos, Real.exp, Real.log, Real.sqrt⟩ (0 : ℝ)) :=
  ⟨by norm_num, claim_C6.2.2.2.2 1 (by norm_num)⟩

/-- Claim C9 (code defect evidence): the gaussian branch of
`buildSino3D_core_single` reads the locals `a1`, `b1` that are never assigned
in that branch, so its output is not a function of the declared primitive
parameters: two runs that differ only in the uninitialised contents (1,1)
versus (4,4) produce different buffers from identical declared inputs. -/
theorem claim_C9_evidence :
    (buildSino3D_core_single ⟨Real.sin, Real.cos, Real.exp, Real.log, Real.sqrt⟩
        (fun _ => 0) 2 2 (fun _ => 0) 1 1 1 1 (-(7/6)) 0 0 1 1 1 0 0 0 1 1).1
        (0 * 2 * 1 + 0 * 2 + 0)
      ≠ (buildSino3D_core_single ⟨Real.sin, Real.cos, Real.exp, Real.log, Real.sqrt⟩
        (fun _ => 0) 2 2 (fun _ => 0) 1 1 1 1 (-(7/6)) 0 0 1 1 1 0 0 0 4 4).1
        (0 * 2 * 1 + 0 * 2 + 0) := by
  have h4 : Real.sqrt 4 = 2 := by
    rw [show (4 : ℝ) = 2 ^ 2 by norm_num, Real.sqrt_sq (by norm_num : (0 : ℝ) ≤ 2)]
  have hq : Real.sqrt (1 / 4) = 1 / 2 := by
    rw [show (1 / 4 : ℝ) = (1 / 2) ^ 2 by norm_num,
      Real.sqrt_sq (by norm_num : (0 : ℝ) ≤ 1 / 2)]
  have hX : (0 : ℝ) < Real.sqrt (M_PI / Real.log 2) := by
    refine Real.sqrt_pos.mpr (div_pos ?_ (Real.log_pos (by norm_num)))
    rw [M_PI]
    norm_num
  rw [buildSino3D_core_single_apply ⟨Real.sin, Real.cos, Real.exp, Real.log, Real.sqrt⟩
    (fun _ => 0) 2 2 (fun _ => 0) 1 1 1 1 (-(7/6)) 0 0 1 1 1 0 0 0 1 1
    (by norm_num) (by norm_num) (by norm_num),
    buildSino3D_core_single_apply ⟨Real.sin, Real.cos, Real.exp, Real.log, Real.sqrt⟩
    (fun _ => 0) 2 2 (fun _ => 0) 1 1 1 1 (-(7/6)) 0 0 1 1 1 0 0 0 4 4
    (by norm_num) (by norm_num) (by norm_num)]
  unfold singleContrib
  rw [if_pos rfl, if_pos rfl]
  norm_num [blobVal, AnglesRad, centered, H_x, Tomorange_Xmax, Tomorange_Xmin,
    Sinorange_P_Ar, Sinorange_Pmax, Sinorange_Pmin, H_p,
    Real.sin_zero, Real.cos_zero, Real.exp_zero, Real.sqrt_one, h4, hq]
  intro h
  nlinarith [hX, h]

end TomoSino
